import Mathlib

/-!
# A verification development for the fake NUT server of nuttyqt

The definitions embed `src/fakenut.go`: the device record `FakeNUTDevice`, the
constructor `NewFakeNUTServer` and the command handler `handleUPSCommand`.

Modelling conventions.

* A Go `string` is a Lean `String`; `strings.Split(command, " ")` is `Split`.
* `net.Conn` is modelled by the text written to it.  One call of the handler
  yields an `Outcome`: the text written by that call and whether the call ended
  in a runtime panic.  Writes are assumed to succeed (the source ignores the
  error results of `fmt.Fprint*`).
* A Go map `map[string]*FakeNUTDevice` is an association list; a `nil` pointer
  is `none`.  The order of the list is the order in which `range` visits the map.
* A `float64` is represented by what `strconv` extracts from it: its sign and
  its shortest round-trip decimal digits (`decimalSlice`).
* The goroutine that `Start` spawns for a connection is `Start.connection`, on
  the text the client sends: the list of the outcomes of the handler calls it
  makes.  A panic of the handler ends the process, so the list ends there.
* `LoadConfig` of `src/main.go` is a function from the environment and the
  value of the package variable `config` to its new value.
-/

namespace NuttyQt

/-! ## Library models: `strings`, `strconv`, `fmt` -/

/-- Pieces of a character list between occurrences of `sep`; the empty list has
one (empty) piece, as `strings.Split("", " ")` has. -/
def splitChars (sep : Char) : List Char → List (List Char)
  | [] => [[]]
  | c :: cs =>
    if c = sep then [] :: splitChars sep cs
    else
      match splitChars sep cs with
      | [] => [[c]]
      | t :: ts => (c :: t) :: ts

/-- Model of `strings.Split(s, sep)` for a one-character separator. -/
def Split (s : String) (sep : Char) : List String :=
  (splitChars sep s.data).map String.mk

/-- Model of `strconv.FormatInt(n, 10)`, which `fmt` uses for `%v` on an `int`. -/
def FormatInt (n : Int) : String :=
  if n < 0 then "-" ++ String.mk (Nat.toDigits 10 n.natAbs)
  else String.mk (Nat.toDigits 10 n.natAbs)

/-- The `decimalSlice` of `strconv`: digits `d` and the position `dp` of the
decimal point, standing for `0.d₀d₁… × 10^dp`. -/
structure decimalSlice where
  d : List Char
  dp : Int
deriving DecidableEq, Repr

/-- A `float64`, as `strconv.FormatFloat` sees it: a sign with the shortest
decimal digits that round-trip, an infinity, or NaN. -/
inductive Float64 where
  | finite (neg : Bool) (digs : decimalSlice)
  | inf (neg : Bool)
  | nan
deriving DecidableEq, Repr

/-- Drop the trailing `'0'` characters of a digit string. -/
def stripTrailingZeros (ds : List Char) : List Char :=
  (ds.reverse.dropWhile (· == '0')).reverse

/-- The `float64` denoted by the decimal literal `mantissa × 10^(-fracDigits)`
(for instance `232.6` is `2326 × 10^(-1)`).  For a literal of at most 15
significant digits the shortest round-trip digits of the nearest `float64` are
the digits of the literal without trailing zeros. -/
def Float64.ofLiteral (mantissa fracDigits : Nat) : Float64 :=
  if mantissa = 0 then .finite false ⟨[], 0⟩
  else
    let ds := Nat.toDigits 10 mantissa
    .finite false ⟨stripTrailingZeros ds, (ds.length : Int) - fracDigits⟩

instance : OfScientific Float64 where
  ofScientific m s e := if s then Float64.ofLiteral m e else Float64.ofLiteral (m * 10 ^ e) 0

/-- The `%e` layout of `strconv` (`fmtE`): `d.ddddde±dd`. -/
def fmtE (neg : Bool) (d : decimalSlice) (prec : Int) : List Char :=
  let nd := d.d.length
  let sign := if neg then ['-'] else []
  let first := d.d.headD '0'
  let more :=
    if prec > 0 then
      let m := min nd (prec.toNat + 1)
      let i := if 1 < m then m else 1
      '.' :: ((d.d.take m).drop 1 ++ List.replicate (prec.toNat + 1 - i) '0')
    else []
  let exp := if nd = 0 then 0 else d.dp - 1
  let ch := if exp < 0 then '-' else '+'
  let e := exp.natAbs
  let expDigits :=
    if e < 10 then ['0', Nat.digitChar e]
    else if e < 100 then [Nat.digitChar (e / 10), Nat.digitChar (e % 10)]
    else [Nat.digitChar (e / 100), Nat.digitChar (e / 10 % 10), Nat.digitChar (e % 10)]
  sign ++ first :: more ++ 'e' :: ch :: expDigits

/-- The `%f` layout of `strconv` (`fmtF`): `ddddd.ddddd`. -/
def fmtF (neg : Bool) (d : decimalSlice) (prec : Nat) : List Char :=
  let nd := d.d.length
  let sign := if neg then ['-'] else []
  let integer :=
    if d.dp > 0 then
      let m := min nd d.dp.toNat
      d.d.take m ++ List.replicate (d.dp.toNat - m) '0'
    else ['0']
  let fraction :=
    if prec > 0 then
      '.' :: (List.range prec).map fun i =>
        let j := d.dp + i
        if 0 ≤ j ∧ j < nd then d.d.getD j.toNat '0' else '0'
    else []
  sign ++ integer ++ fraction

/-- Model of `strconv.FormatFloat(x, 'g', -1, 64)`, which `fmt` uses for `%v`
on a `float64`: the shortest digits, in `%e` layout when the decimal exponent
is less than -4 or at least 6, in `%f` layout otherwise. -/
def FormatFloat (x : Float64) : String :=
  match x with
  | .nan => "NaN"
  | .inf neg => if neg then "-Inf" else "+Inf"
  | .finite neg digs =>
    let nd := digs.d.length
    let eprec : Int := 6
    let exp := digs.dp - 1
    if exp < -4 ∨ exp ≥ eprec then String.mk (fmtE neg digs ((nd : Int) - 1))
    else String.mk (fmtF neg digs ((nd : Int) - digs.dp).toNat)

/-- The dynamic value held by a struct field, as `reflect.Value` exposes it. -/
inductive Value where
  | int (n : Int)
  | float64 (x : Float64)
  | string (s : String)
deriving DecidableEq, Repr

/-- Model of the verb `%v` of `fmt` applied to a field value. -/
def fmtV : Value → String
  | .int n => FormatInt n
  | .float64 x => FormatFloat x
  | .string s => s

/-- Model of the verb `%s` of `fmt` applied to a `reflect.Value`: the operand
is replaced by the value it holds; a string prints as itself, and for an
integer or a float `%s` is a bad verb, which `fmt` reports in the output as
`%!s(<type>=<value printed with %v>)`. -/
def fmtS : Value → String
  | .int n => "%!s(int=" ++ FormatInt n ++ ")"
  | .float64 x => "%!s(float64=" ++ FormatFloat x ++ ")"
  | .string s => s

/-- Model of `fmt.Fprint(conn, s)` on the text written so far. -/
def Fprint (conn : String) (s : String) : String := conn ++ s

/-- Model of `fmt.Fprintln(conn, s)` on the text written so far. -/
def Fprintln (conn : String) (s : String) : String := conn ++ s ++ "\n"

/-! ## The device record and the server -/

/-- The struct `FakeNUTDevice` of the source, field by field. -/
structure FakeNUTDevice where
  BatteryCharge : Int
  BatteryChargeLow : Int
  BatteryChargeWarning : Int
  BatteryMfrDate : String
  BatteryRuntime : Int
  BatteryRuntimeLow : Int
  BatteryType : String
  BatteryVoltage : Int
  BatteryVoltageNominal : Int
  DeviceMfr : String
  DeviceModel : String
  DeviceSerial : String
  DeviceType : String
  DriverName : String
  DriverParameterPollFreq : Int
  DriverParameterPollInterval : Int
  DriverParameterPort : String
  DriverParameterSynchronous : String
  DriverVersion : String
  DriverVersionData : String
  DriverVersionInternal : String
  DriverVersionUSB : String
  InputFrequency : Float64
  InputTransferHigh : Int
  InputTransferLow : Int
  InputVoltage : Float64
  InputVoltageNominal : Int
  OutputFrequency : Float64
  OutputVoltage : Float64
  UPSBeeperStatus : String
  UPSDelayShutdown : Int
  UPSDelayStart : Int
  UPSLoad : Int
  UPSMfr : String
  UPSModel : String
  UPSProductID : String
  UPSRealPowerNominal : Int
  UPSSerial : String
  UPSStatus : String
  UPSTimerShutdown : Int
  UPSTimerStart : Int
  UPSVendorID : String

/-- What the reflection loop of `LIST VAR` sees: for each struct field, in
declaration order, its `json` tag and its value. -/
def FakeNUTDevice.fields (d : FakeNUTDevice) : List (String × Value) :=
  [("battery.charge", .int d.BatteryCharge),
   ("battery.charge.low", .int d.BatteryChargeLow),
   ("battery.charge.warning", .int d.BatteryChargeWarning),
   ("battery.mfr.date", .string d.BatteryMfrDate),
   ("battery.runtime", .int d.BatteryRuntime),
   ("battery.runtime.low", .int d.BatteryRuntimeLow),
   ("battery.type", .string d.BatteryType),
   ("battery.voltage", .int d.BatteryVoltage),
   ("battery.voltage.nominal", .int d.BatteryVoltageNominal),
   ("device.mfr", .string d.DeviceMfr),
   ("device.model", .string d.DeviceModel),
   ("device.serial", .string d.DeviceSerial),
   ("device.type", .string d.DeviceType),
   ("driver.name", .string d.DriverName),
   ("driver.parameter.pollfreq", .int d.DriverParameterPollFreq),
   ("driver.parameter.pollinterval", .int d.DriverParameterPollInterval),
   ("driver.parameter.port", .string d.DriverParameterPort),
   ("driver.parameter.synchronous", .string d.DriverParameterSynchronous),
   ("driver.version", .string d.DriverVersion),
   ("driver.version.data", .string d.DriverVersionData),
   ("driver.version.internal", .string d.DriverVersionInternal),
   ("driver.version.usb", .string d.DriverVersionUSB),
   ("input.frequency", .float64 d.InputFrequency),
   ("input.transfer.high", .int d.InputTransferHigh),
   ("input.transfer.low", .int d.InputTransferLow),
   ("input.voltage", .float64 d.InputVoltage),
   ("input.voltage.nominal", .int d.InputVoltageNominal),
   ("output.frequency", .float64 d.OutputFrequency),
   ("output.voltage", .float64 d.OutputVoltage),
   ("ups.beeper.status", .string d.UPSBeeperStatus),
   ("ups.delay.shutdown", .int d.UPSDelayShutdown),
   ("ups.delay.start", .int d.UPSDelayStart),
   ("ups.load", .int d.UPSLoad),
   ("ups.mfr", .string d.UPSMfr),
   ("ups.model", .string d.UPSModel),
   ("ups.productid", .string d.UPSProductID),
   ("ups.realpower.nominal", .int d.UPSRealPowerNominal),
   ("ups.serial", .string d.UPSSerial),
   ("ups.status", .string d.UPSStatus),
   ("ups.timer.shutdown", .int d.UPSTimerShutdown),
   ("ups.timer.start", .int d.UPSTimerStart),
   ("ups.vendorid", .string d.UPSVendorID)]

/-- The struct `FakeNUTServer`; a `nil` device pointer is `none`. -/
structure FakeNUTServer where
  Host : String
  Port : String
  Devices : List (String × Option FakeNUTDevice)

/-- The process environment read by `os.LookupEnv`. -/
abbrev Env := String → Option String

/-- The device literal that `NewFakeNUTServer` builds. -/
def NewFakeNUTServer.device : FakeNUTDevice where
  BatteryCharge := 100
  BatteryChargeLow := 20
  BatteryChargeWarning := 25
  BatteryMfrDate := "1"
  BatteryRuntime := 1620
  BatteryRuntimeLow := 300
  BatteryType := "PbAcid"
  BatteryVoltage := 26
  BatteryVoltageNominal := 24
  DeviceMfr := "1"
  DeviceModel := "FakeNUT Server"
  DeviceSerial := "000000000000"
  DeviceType := "ups"
  DriverName := "usbhid-ups"
  DriverParameterPollFreq := 40
  DriverParameterPollInterval := 2
  DriverParameterPort := "auto"
  DriverParameterSynchronous := "auto"
  DriverVersion := "2.8.0"
  DriverVersionData := "FakeNUT Server"
  DriverVersionInternal := "0.47"
  DriverVersionUSB := "libusb-1.0.0 (API: 0x1000102)"
  InputFrequency := 50.0
  InputTransferHigh := 290
  InputTransferLow := 165
  InputVoltage := 232.6
  InputVoltageNominal := 230
  OutputFrequency := 50.0
  OutputVoltage := 2.3
  UPSBeeperStatus := "disabled"
  UPSDelayShutdown := 20
  UPSDelayStart := 30
  UPSLoad := 12
  UPSMfr := "1"
  UPSModel := "2200R"
  UPSProductID := "0601"
  UPSRealPowerNominal := 1320
  UPSSerial := "000000000000"
  UPSStatus := "OL"
  UPSTimerShutdown := -60
  UPSTimerStart := -60
  UPSVendorID := "0764"

/-- The constructor `NewFakeNUTServer`, reading the environment `env`. -/
def NewFakeNUTServer (env : Env) : FakeNUTServer :=
  let server : FakeNUTServer :=
    { Host := "localhost", Port := "3493", Devices := [("FakeUPS", some NewFakeNUTServer.device)] }
  let server := match env "NUT_SERVER" with
    | some host => { server with Host := host }
    | none => server
  let server := match env "NUT_PORT" with
    | some port => { server with Port := port }
    | none => server
  server

/-- The environment in which no variable is set. -/
def emptyEnv : Env := fun _ => none

/-! ## The command handler -/

/-- What one call of the handler did: the text it wrote to the connection and
whether it ended in a runtime panic instead of returning. -/
structure Outcome where
  written : String
  panicked : Bool
deriving DecidableEq, Repr

/-- The loop `for upsName := range fakeNUTServer.Devices` of `LIST UPS`: one
`UPS` line per key, in the order of the enumeration. -/
def listUPSLoop (conn : String) (devices : List (String × Option FakeNUTDevice)) : String :=
  devices.foldl
    (fun conn entry => Fprint conn ("UPS " ++ entry.1 ++ " \"Description unavailable\"\n")) conn

/-- The reflection loop of `LIST VAR` over the fields of a device: one `VAR`
line per field, the value printed with the verb `%s`. -/
def listVARLoop (conn : String) (subCmdVal : String) (fields : List (String × Value)) : String :=
  fields.foldl
    (fun conn field =>
      Fprint conn ("VAR " ++ subCmdVal ++ " " ++ field.1 ++ " \"" ++ fmtS field.2 ++ "\"\n")) conn

/-- The `switch cmd` statement of `handleUPSCommand` (lines 273-481), on the
four tokens extracted from the line.  Every `return` of the source is the last
statement executed by its branch, so a branch is the text it writes together
with `panicked := false`, except where the source panics. -/
def dispatch (fakeNUTServer : FakeNUTServer) (cmd subCmd subCmdVal subCmdVar : String) :
    Outcome :=
  let conn := ""
  if cmd = "HELP" then
    let conn := Fprint conn "Commands: "
    let conn := Fprint conn "HELP "
    let conn := Fprint conn "VER "
    let conn := Fprint conn "GET "
    let conn := Fprint conn "LIST "
    let conn := Fprint conn "SET "
    let conn := Fprint conn "INSTCMD "
    let conn := Fprint conn "LOGIN "
    let conn := Fprint conn "LOGOUT "
    let conn := Fprint conn "USERNAME "
    let conn := Fprint conn "PASSWORD "
    let conn := Fprint conn "STARTTLS\n"
    ⟨conn, false⟩
  else if cmd = "VER" then
    ⟨Fprintln conn "Fake UPS Server", false⟩
  else if cmd = "GET" then
    if subCmd = "NUMLOGINS" then
      if subCmdVal = "" then ⟨Fprintln conn "ERR INVALID-ARGUMENT", false⟩
      else ⟨Fprint conn ("NUMLOGINS " ++ subCmdVal ++ " 1\n"), false⟩
    else if subCmd = "CMDDESC" then
      if subCmdVal = "" then ⟨Fprintln conn "ERR INVALID-ARGUMENT", false⟩
      else if subCmdVar = "" then ⟨Fprintln conn "ERR INVALID-ARGUMENT", false⟩
      else
        ⟨Fprint conn
          ("CMDDESC " ++ subCmdVal ++ " " ++ subCmdVar ++ " \"Description unavailable\"\n"),
          false⟩
    else if subCmd = "UPSDESC" then
      if subCmdVal = "" then ⟨Fprintln conn "ERR INVALID-ARGUMENT", false⟩
      else ⟨Fprint conn ("UPSDESC " ++ subCmdVal ++ " \"Fake UPS Device\"\n"), false⟩
    else
      if subCmdVal = "" then ⟨Fprintln conn "ERR INVALID-ARGUMENT", false⟩
      else ⟨Fprint conn ("NUMLOGINS " ++ subCmdVal ++ " 1\n"), false⟩
  else if cmd = "LIST" then
    if subCmd = "UPS" then
      let conn := Fprintln conn "BEGIN LIST UPS"
      let conn := listUPSLoop conn fakeNUTServer.Devices
      ⟨Fprintln conn "END LIST UPS", false⟩
    else if subCmd = "CLIENT" then
      if subCmdVal = "" then ⟨Fprintln conn "ERR INVALID-ARGUMENT", false⟩
      else
        let conn := Fprint conn ("BEGIN LIST CLIENT " ++ subCmdVal ++ "\n")
        let conn := Fprint conn ("CLIENT " ++ subCmdVal ++ " 127.0.0.1\n")
        ⟨Fprint conn ("END LIST CLIENT " ++ subCmdVal ++ "\n"), false⟩
    else if subCmd = "CMD" then
      if subCmdVal = "" then ⟨Fprintln conn "ERR INVALID-ARGUMENT", false⟩
      else
        let conn := Fprint conn ("BEGIN LIST CMD " ++ subCmdVal ++ "\n")
        let conn := Fprint conn ("CMD " ++ subCmdVal ++ " beeper.disable\n")
        let conn := Fprint conn ("CMD " ++ subCmdVal ++ " beeper.enable\n")
        let conn := Fprint conn ("CMD " ++ subCmdVal ++ " beeper.mute\n")
        let conn := Fprint conn ("CMD " ++ subCmdVal ++ " beeper.off\n")
        let conn := Fprint conn ("CMD " ++ subCmdVal ++ " beeper.on\n")
        let conn := Fprint conn ("CMD " ++ subCmdVal ++ " load.off\n")
        let conn := Fprint conn ("CMD " ++ subCmdVal ++ " load.off.delay\n")
        let conn := Fprint conn ("CMD " ++ subCmdVal ++ " load.on\n")
        let conn := Fprint conn ("CMD " ++ subCmdVal ++ " load.on.delay\n")
        let conn := Fprint conn ("CMD " ++ subCmdVal ++ " shutdown.return\n")
        let conn := Fprint conn ("CMD " ++ subCmdVal ++ " shutdown.stayoff\n")
        let conn := Fprint conn ("CMD " ++ subCmdVal ++ " shutdown.stop\n")
        let conn := Fprint conn ("CMD " ++ subCmdVal ++ " test.battery.start.deep\n")
        let conn := Fprint conn ("CMD " ++ subCmdVal ++ " test.battery.start.quick\n")
        let conn := Fprint conn ("CMD " ++ subCmdVal ++ " test.battery.stop\n")
        ⟨Fprint conn ("END LIST CMD " ++ subCmdVal ++ "\n"), false⟩
    else if subCmd = "VAR" then
      if subCmdVal = "" then ⟨Fprintln conn "ERR INVALID-ARGUMENT", false⟩
      else
        let conn := Fprint conn ("BEGIN LIST VAR " ++ subCmdVal ++ "\n")
        -- fakeNUTDevice, deviceOk = fakeNUTServer.Devices[subCmdVal]
        let found := fakeNUTServer.Devices.lookup subCmdVal
        let fakeNUTDevice : Option FakeNUTDevice := found.getD none
        let deviceOk := found.isSome
        let conn :=
          if !deviceOk then Fprint conn ("ERR NOSUCHCMD " ++ subCmdVal ++ "\n") else conn
        -- reflect.ValueOf(fakeNUTDevice).Elem() is the zero Value for a nil pointer,
        -- and NumField on the zero Value panics before the loop body runs
        match fakeNUTDevice with
        | none => ⟨conn, true⟩
        | some device =>
          let conn := listVARLoop conn subCmdVal device.fields
          ⟨Fprint conn ("END LIST VAR " ++ subCmdVal ++ "\n"), false⟩
    else ⟨Fprintln conn "ERR INVALID-ARGUMENT", false⟩
  else if cmd = "SET" then ⟨Fprintln conn "ERR INVALID ARGUMENT", false⟩
  else if cmd = "INSTCMD" then ⟨Fprintln conn "ERR USERNAME-REQUIRED", false⟩
  else if cmd = "LOGIN" then ⟨Fprintln conn "OK", false⟩
  else if cmd = "LOGOUT" then ⟨Fprintln conn "OK", false⟩
  else if cmd = "USERNAME" then ⟨Fprintln conn "OK", false⟩
  else if cmd = "PASSWORD" then ⟨Fprintln conn "OK", false⟩
  else if cmd = "STARTTLS" then ⟨Fprintln conn "ERR FEATURE-NOT-CONFIGURED", false⟩
  else ⟨Fprintln conn "ERR UNKNOWN-COMMAND", false⟩

/-- The method `handleUPSCommand`: split the line on single spaces, take the
first token as the command and the next three, where present, as `subCmd`,
`subCmdVal` and `subCmdVar`, then run the `switch`.  Indexing `args[0]` of an
empty slice would be a runtime panic. -/
def handleUPSCommand (fakeNUTServer : FakeNUTServer) (command : String) : Outcome :=
  let args := Split command ' '
  match args[0]? with
  | none => ⟨"", true⟩
  | some cmd =>
    let subCmd := if args.length > 1 then args.getD 1 "" else ""
    let subCmdVal := if args.length > 2 then args.getD 2 "" else ""
    let subCmdVar := if args.length > 3 then args.getD 3 "" else ""
    dispatch fakeNUTServer cmd subCmd subCmdVal subCmdVar


/-! ## Vocabulary of the statements -/

/-- The line made of the given tokens, separated by single spaces. -/
def joinTokens : List String → String
  | [] => ""
  | [t] => t
  | t :: u :: ts => t ++ " " ++ joinTokens (u :: ts)

/-- The text of a line before its first space (the whole line if it has none). -/
def firstToken (command : String) : String :=
  String.mk (command.data.takeWhile (· ≠ ' '))

/-- The command names that the `switch` of the handler has a case for. -/
def primaryCommands : List String :=
  ["HELP", "VER", "GET", "LIST", "SET", "INSTCMD", "LOGIN", "LOGOUT", "USERNAME", "PASSWORD",
    "STARTTLS"]

/-- The text made of the given lines, each followed by a newline. -/
def unlines (ls : List String) : String :=
  ls.foldr (fun l acc => l ++ "\n" ++ acc) ""

/-- The `json` tags of the fields of `FakeNUTDevice`, in declaration order:
the external names of the variables. -/
def variableNames : List String :=
  (FakeNUTDevice.fields NewFakeNUTServer.device).map Prod.fst

/-- The data line of `LIST UPS` for a device name. -/
def upsLine (name : String) : String :=
  "UPS " ++ name ++ " \"Description unavailable\""

/-- The data line of `LIST VAR` for a device, a variable name and a value text. -/
def varLine (device name value : String) : String :=
  "VAR " ++ device ++ " " ++ name ++ " \"" ++ value ++ "\""

/-- The text ends with a newline: it is not empty and its last line is terminated. -/
def EndsWithNewline (s : String) : Prop :=
  s.data.getLast? = some '\n'

instance (s : String) : Decidable (EndsWithNewline s) := by
  unfold EndsWithNewline
  infer_instance

/-- The call returned normally after writing a non-empty text that ends with a
newline, that is, a text made of newline-terminated lines. -/
def Returned (o : Outcome) : Prop :=
  o.panicked = false ∧ EndsWithNewline o.written

/-- The `i`-th space-separated token of a line, empty when the line has no
such token: `args[i]` under the guard `len(args) > i` of the handler. -/
def token (command : String) (i : Nat) : String :=
  (Split command ' ').getD i ""

/-- The names of the instant commands, in the order in which the `LIST CMD`
branch writes them (lines 367-381). -/
def instantCommands : List String :=
  ["beeper.disable", "beeper.enable", "beeper.mute", "beeper.off", "beeper.on", "load.off",
    "load.off.delay", "load.on", "load.on.delay", "shutdown.return", "shutdown.stayoff",
    "shutdown.stop", "test.battery.start.deep", "test.battery.start.quick", "test.battery.stop"]

/-- The names listed by a `HELP` reply: the reply without its final newline,
split on spaces, without the leading word `Commands:`. -/
def helpNames (reply : String) : List String :=
  (Split (String.mk reply.data.dropLast) ' ').drop 1

/-- The text of the reply to an unknown command. -/
def unknownReply : String := "ERR UNKNOWN-COMMAND\n"

/-- No text that starts with `s` is the reply to an unknown command. -/
def Recognised (s : String) : Prop :=
  ¬ s.data <+: unknownReply.data

instance (s : String) : Decidable (Recognised s) := by
  unfold Recognised
  infer_instance

/-- The reply written by the call is not the reply to an unknown command. -/
def RecognisedReply (o : Outcome) : Prop :=
  Recognised o.written

/-! ## The connection loop -/

/-- Model of `unicode.IsSpace`, the characters that `strings.TrimSpace` strips. -/
def isSpace (c : Char) : Bool :=
  c = '\t' ∨ c = '\n' ∨ c.toNat = 0x0B ∨ c.toNat = 0x0C ∨ c = '\r' ∨ c = ' ' ∨
  c.toNat = 0x85 ∨ c.toNat = 0xA0 ∨ c.toNat = 0x1680 ∨ (0x2000 ≤ c.toNat ∧ c.toNat ≤ 0x200A) ∨
  c.toNat = 0x2028 ∨ c.toNat = 0x2029 ∨ c.toNat = 0x202F ∨ c.toNat = 0x205F ∨ c.toNat = 0x3000

/-- Model of `strings.TrimSpace`: the text without its leading and trailing
white space. -/
def TrimSpace (s : String) : String :=
  String.mk ((s.data.dropWhile isSpace).reverse.dropWhile isSpace).reverse

/-- The successive results of `reader.ReadString('\n')` on the text a client
sends: each is the text up to and including the next newline.  What follows
the last newline is returned together with `io.EOF`, on which the loop returns,
so it never makes a command. -/
def readStrings (input : String) : List String :=
  (Split input '\n').dropLast.map (· ++ "\n")

/-- The `for` loop of the goroutine that `Start` spawns for a connection
(lines 561-587), on the successive results of `ReadString`: trim the line and
hand it to `handleUPSCommand`.  The list holds the outcome of each call that
was made.  A panic of the handler is not recovered: it ends the process, so no
later line is read or answered. -/
def connectionLoop (fakeNUTServer : FakeNUTServer) : List String → List Outcome
  | [] => []
  | received :: rest =>
    let command := TrimSpace received
    let outcome := handleUPSCommand fakeNUTServer command
    if outcome.panicked then [outcome]
    else outcome :: connectionLoop fakeNUTServer rest

/-- The goroutine that `Start` spawns for an accepted connection, on the whole
text that the client sends on it: the outcome of each handler call made. -/
def Start.connection (fakeNUTServer : FakeNUTServer) (input : String) : List Outcome :=
  connectionLoop fakeNUTServer (readStrings input)

/-! ## The configuration of `main.go` -/

/-- What the digit loop of `strconv.ParseUint(s, 10, 64)` ends with: a value, a
character that is not a decimal digit, or a value that exceeds 64 bits. -/
inductive ParseUintResult where
  | value (n : Nat)
  | invalid
  | outOfRange
deriving DecidableEq, Repr

/-- The digit loop of `strconv.ParseUint(s, 10, 64)`, from the value read so
far: characters are taken from left to right, the first that is not a decimal
digit is an error, and so is the first digit that takes the value above
`2^64 - 1`. -/
def ParseUint.loop : List Char → Nat → ParseUintResult
  | [], n => .value n
  | c :: cs, n =>
    if c.isDigit then
      if n * 10 + (c.toNat - '0'.toNat) > 2 ^ 64 - 1 then .outOfRange
      else ParseUint.loop cs (n * 10 + (c.toNat - '0'.toNat))
    else .invalid

/-- Model of `strconv.ParseUint(s, 10, 64)`; the empty text is invalid. -/
def ParseUint (s : List Char) : ParseUintResult :=
  if s = [] then .invalid else ParseUint.loop s 0

/-- Model of `strconv.Atoi(s)` for the 64-bit `int`: the value returned and
whether an error is returned with it.  After an optional sign the characters
are read from left to right: an empty text or a character that is not a decimal
digit gives `0` with an error; digits whose value leaves the range of `int`
give the nearest bound with an error, whatever follows them.  (The fast path
that `Atoi` takes for texts of fewer than 19 bytes computes the same result.) -/
def Atoi (s : String) : Int × Bool :=
  if s = "" then (0, true)
  else
    let neg := s.data.head? = some '-'
    let digits := if s.data.head? = some '-' ∨ s.data.head? = some '+' then s.data.tail
      else s.data
    match ParseUint digits with
    | .invalid => (0, true)
    | .outOfRange => if neg then (-(2 ^ 63 : Int), true) else ((2 ^ 63 : Int) - 1, true)
    | .value un =>
      if ¬ neg ∧ un ≥ 2 ^ 63 then ((2 ^ 63 : Int) - 1, true)
      else if neg ∧ un > 2 ^ 63 then (-(2 ^ 63 : Int), true)
      else if neg then (-(un : Int), false)
      else ((un : Int), false)

/-- Model of `strconv.Itoa`. -/
def Itoa (i : Int) : String := FormatInt i

/-- Model of `strconv.ParseBool`: the value returned and whether an error is
returned with it. -/
def ParseBool (str : String) : Bool × Bool :=
  if str ∈ ["1", "t", "T", "true", "TRUE", "True"] then (true, false)
  else if str ∈ ["0", "f", "F", "false", "FALSE", "False"] then (false, false)
  else (false, true)

/-- Model of `strconv.FormatBool`. -/
def FormatBool (b : Bool) : String := if b then "true" else "false"

/-- The struct `Config` of `main.go`. -/
structure Config where
  MQTTBrokerProtocol : String
  MQTTBrokerHost : String
  MQTTBrokerPort : Int
  MQTTClient : String
  MQTTTopic : String
  MQTTUser : String
  MQTTPass : String
  NUTServerHost : String
  NUTServerPort : Int
  NUTUser : String
  NUTPass : String
  UpdateInterval : Int
  Verbose : Bool
deriving DecidableEq, Repr

/-- The initial value of the package variable `config`. -/
def config : Config where
  MQTTBrokerProtocol := "tcp"
  MQTTBrokerHost := "localhost"
  MQTTBrokerPort := 1883
  MQTTClient := "nuttyqt"
  MQTTTopic := "nuttyqt"
  MQTTUser := ""
  MQTTPass := ""
  NUTServerHost := "localhost"
  NUTServerPort := 3493
  NUTUser := ""
  NUTPass := ""
  UpdateInterval := 60
  Verbose := false

/-- The function `GetEnv`: the value of an environment variable, or the
fallback when the variable is not set. -/
def GetEnv (env : Env) (key fallback : String) : String :=
  match env key with
  | some value => value
  | none => fallback

/-- The function `LoadConfig`, as a function from the environment and the
current value of the package variable `config` to its new value.  The error
results of `strconv.Atoi` and `strconv.ParseBool` are discarded, as in the
source. -/
def LoadConfig (env : Env) (config : Config) : Config :=
  let config := { config with
    MQTTBrokerProtocol := GetEnv env "MQTT_BROKER_PROTOCOL" config.MQTTBrokerProtocol }
  let config := { config with
    MQTTBrokerHost := GetEnv env "MQTT_BROKER_HOST" config.MQTTBrokerHost }
  let config := { config with
    MQTTBrokerPort := (Atoi (GetEnv env "MQTT_BROKER_PORT" (Itoa config.MQTTBrokerPort))).1 }
  let config := { config with MQTTClient := GetEnv env "MQTT_CLIENT" config.MQTTClient }
  let config := { config with MQTTTopic := GetEnv env "MQTT_TOPIC" config.MQTTTopic }
  let config := { config with MQTTUser := GetEnv env "MQTT_USER" config.MQTTUser }
  let config := { config with MQTTPass := GetEnv env "MQTT_PASS" config.MQTTPass }
  let config := { config with NUTServerHost := GetEnv env "NUT_SERVER" config.NUTServerHost }
  let config := { config with
    NUTServerPort := (Atoi (GetEnv env "NUT_PORT" (Itoa config.NUTServerPort))).1 }
  let config := { config with NUTUser := GetEnv env "NUT_USER" config.NUTUser }
  let config := { config with NUTPass := GetEnv env "NUT_PASS" config.NUTPass }
  let config := { config with
    UpdateInterval := (Atoi (GetEnv env "UPDATE_INTERVAL" (Itoa config.UpdateInterval))).1 }
  let config := { config with
    Verbose := (ParseBool (GetEnv env "VERBOSE" (FormatBool config.Verbose))).1 }
  config

/-- The environment variables that `LoadConfig` reads. -/
def configVariables : List String :=
  ["MQTT_BROKER_PROTOCOL", "MQTT_BROKER_HOST", "MQTT_BROKER_PORT", "MQTT_CLIENT", "MQTT_TOPIC",
    "MQTT_USER", "MQTT_PASS", "NUT_SERVER", "NUT_PORT", "NUT_USER", "NUT_PASS", "UPDATE_INTERVAL",
    "VERBOSE"]

/-! ## Vocabulary for the texts that `Atoi` is given -/

/-- The text without its leading sign, if it has one. -/
def unsigned (s : String) : List Char :=
  match s.data with
  | '+' :: rest => rest
  | '-' :: rest => rest
  | rest => rest

/-- The text is a decimal integer: an optional sign followed by one or more
decimal digits and nothing else. -/
def IsDecimalInteger (s : String) : Prop :=
  unsigned s ≠ [] ∧ ∀ c ∈ unsigned s, c.isDigit = true

instance (s : String) : Decidable (IsDecimalInteger s) := by
  unfold IsDecimalInteger
  infer_instance

/-- The number written by a list of decimal digits. -/
def digitsValue (ds : List Char) : Nat :=
  ds.foldl (fun n c => n * 10 + (c.toNat - '0'.toNat)) 0

/-- The decimal digits that follow the optional sign of a text, up to the first
character that is not a digit. -/
def leadingDigits (s : String) : List Char :=
  (unsigned s).takeWhile Char.isDigit

/-! ## Splitting a line into tokens -/

theorem splitChars_ne_nil (sep : Char) (l : List Char) : splitChars sep l ≠ [] := by
  induction l with
  | nil => simp [splitChars]
  | cons c cs ih =>
    unfold splitChars
    split
    · simp
    · split <;> simp

theorem splitChars_of_not_mem (sep : Char) (t : List Char) (h : sep ∉ t) :
    splitChars sep t = [t] := by
  induction t with
  | nil => rfl
  | cons c cs ih =>
    have hc : c ≠ sep := fun e => h (by simp [e])
    have hcs : sep ∉ cs := fun e => h (by simp [e])
    simp [splitChars, hc, ih hcs]

theorem splitChars_append_sep (sep : Char) (t rest : List Char) (h : sep ∉ t) :
    splitChars sep (t ++ sep :: rest) = t :: splitChars sep rest := by
  induction t with
  | nil => simp [splitChars]
  | cons c cs ih =>
    have hc : c ≠ sep := fun e => h (by simp [e])
    have hcs : sep ∉ cs := fun e => h (by simp [e])
    simp [splitChars, hc, ih hcs]

theorem splitChars_head (sep : Char) (l : List Char) :
    (splitChars sep l).head? = some (l.takeWhile (· ≠ sep)) := by
  induction l with
  | nil => rfl
  | cons c cs ih =>
    by_cases hc : c = sep
    · simp [splitChars, hc]
    · cases hs : splitChars sep cs with
      | nil => exact absurd hs (splitChars_ne_nil sep cs)
      | cons t ts =>
        rw [hs] at ih
        simp at ih
        simp [splitChars, hc, hs, List.takeWhile_cons, ih]

theorem Split_ne_nil (s : String) (sep : Char) : Split s sep ≠ [] := by
  simp [Split, splitChars_ne_nil]

theorem Split_head (s : String) (sep : Char) :
    (Split s sep).head? = some (String.mk (s.data.takeWhile (· ≠ sep))) := by
  simp [Split, List.head?_map, splitChars_head]

theorem splitChars_joinTokens (ts : List String) (hne : ts ≠ [])
    (h : ∀ t ∈ ts, ' ' ∉ t.data) :
    splitChars ' ' (joinTokens ts).data = ts.map String.data := by
  induction ts with
  | nil => exact absurd rfl hne
  | cons t rest ih =>
    cases rest with
    | nil => simpa [joinTokens] using splitChars_of_not_mem ' ' t.data (h t (by simp))
    | cons u us =>
      have ht : ' ' ∉ t.data := h t (by simp)
      have hrest : ∀ x ∈ u :: us, ' ' ∉ x.data := fun x hx => h x (List.mem_cons_of_mem _ hx)
      have hd : (joinTokens (t :: u :: us)).data =
          t.data ++ ' ' :: (joinTokens (u :: us)).data := by
        simp [joinTokens, String.data_append]
      rw [hd, splitChars_append_sep _ _ _ ht, ih (by simp) hrest]
      simp

theorem Split_joinTokens (ts : List String) (hne : ts ≠ []) (h : ∀ t ∈ ts, ' ' ∉ t.data) :
    Split (joinTokens ts) ' ' = ts := by
  have hid : (String.mk ∘ String.data) = id := funext fun s => rfl
  simp [Split, splitChars_joinTokens ts hne h, hid]

/-! ## From the line to the `switch` -/

theorem handleUPSCommand_of_Split (srv : FakeNUTServer) (command cmd : String)
    (rest : List String) (h : Split command ' ' = cmd :: rest) :
    handleUPSCommand srv command =
      dispatch srv cmd (rest.getD 0 "") (rest.getD 1 "") (rest.getD 2 "") := by
  unfold handleUPSCommand
  simp only [h]
  rcases rest with _ | ⟨a, _ | ⟨b, _ | ⟨c, r⟩⟩⟩ <;> simp

theorem handleUPSCommand_joinTokens (srv : FakeNUTServer) (cmd : String) (rest : List String)
    (h : ∀ t ∈ cmd :: rest, ' ' ∉ t.data) :
    handleUPSCommand srv (joinTokens (cmd :: rest)) =
      dispatch srv cmd (rest.getD 0 "") (rest.getD 1 "") (rest.getD 2 "") :=
  handleUPSCommand_of_Split srv _ cmd rest (Split_joinTokens _ (by simp) h)

theorem handleUPSCommand_firstToken (srv : FakeNUTServer) (command : String) :
    ∃ rest : List String, handleUPSCommand srv command =
      dispatch srv (firstToken command) (rest.getD 0 "") (rest.getD 1 "") (rest.getD 2 "") := by
  cases hs : Split command ' ' with
  | nil => exact absurd hs (Split_ne_nil _ _)
  | cons cmd rest =>
    have hh : cmd = firstToken command := by
      have := Split_head command ' '
      rw [hs] at this
      exact Option.some.inj this
    exact ⟨rest, by rw [handleUPSCommand_of_Split srv command cmd rest hs, hh]⟩

theorem Fprint_empty (s : String) : Fprint "" s = s := by
  simp [Fprint]

theorem dispatch_devices (srv₁ srv₂ : FakeNUTServer) (h : srv₁.Devices = srv₂.Devices)
    (cmd subCmd subCmdVal subCmdVar : String) :
    dispatch srv₁ cmd subCmd subCmdVal subCmdVar =
      dispatch srv₂ cmd subCmd subCmdVal subCmdVar := by
  simp only [dispatch, h]

theorem handleUPSCommand_devices (srv₁ srv₂ : FakeNUTServer) (h : srv₁.Devices = srv₂.Devices)
    (command : String) : handleUPSCommand srv₁ command = handleUPSCommand srv₂ command := by
  simp only [handleUPSCommand, dispatch_devices srv₁ srv₂ h]

theorem NewFakeNUTServer_Devices (env : Env) :
    (NewFakeNUTServer env).Devices = [("FakeUPS", some NewFakeNUTServer.device)] := by
  unfold NewFakeNUTServer
  cases env "NUT_SERVER" <;> cases env "NUT_PORT" <;> rfl

theorem dispatch_unknown (srv : FakeNUTServer) (cmd subCmd subCmdVal subCmdVar : String)
    (h : cmd ∉ primaryCommands) :
    dispatch srv cmd subCmd subCmdVal subCmdVar = ⟨"ERR UNKNOWN-COMMAND\n", false⟩ := by
  simp [primaryCommands] at h
  simp [dispatch, h]
  rfl

/-! ## Unknown commands -/

/-- C1: a line whose first space-delimited token is none of the eleven command
names (the empty line and lower-case spellings included) gets, for every
registry, exactly the reply `ERR UNKNOWN-COMMAND\n`, and the handler returns. -/
theorem unknown_command_reply (fakeNUTServer : FakeNUTServer) (command : String)
    (h : firstToken command ∉ primaryCommands) :
    handleUPSCommand fakeNUTServer command = ⟨"ERR UNKNOWN-COMMAND\n", false⟩ := by
  obtain ⟨rest, hr⟩ := handleUPSCommand_firstToken fakeNUTServer command
  rw [hr]
  exact dispatch_unknown _ _ _ _ _ h

/-- The empty line and the lower-case line `help me` are unknown commands. -/
theorem unknown_command_reply_witness :
    (firstToken "" ∉ primaryCommands ∧
      handleUPSCommand (NewFakeNUTServer emptyEnv) "" = ⟨"ERR UNKNOWN-COMMAND\n", false⟩) ∧
    (firstToken "help me" ∉ primaryCommands ∧
      handleUPSCommand (NewFakeNUTServer emptyEnv) "help me" =
        ⟨"ERR UNKNOWN-COMMAND\n", false⟩) :=
  ⟨⟨by decide, unknown_command_reply _ "" (by decide)⟩,
   ⟨by decide, unknown_command_reply _ "help me" (by decide)⟩⟩

/-! ## `GET UPSDESC` and `GET CMDDESC` -/

/-- C9: for a non-empty device token `d`, `GET UPSDESC d` is answered by exactly
`UPSDESC d "Fake UPS Device"\n`; `GET UPSDESC` without a device token is
answered by exactly `ERR INVALID-ARGUMENT\n`. -/
theorem get_upsdesc_reply (fakeNUTServer : FakeNUTServer) (d : String)
    (hne : d ≠ "") (hsp : ' ' ∉ d.data) :
    handleUPSCommand fakeNUTServer ("GET UPSDESC " ++ d) =
        ⟨"UPSDESC " ++ d ++ " \"Fake UPS Device\"\n", false⟩ ∧
    handleUPSCommand fakeNUTServer "GET UPSDESC" = ⟨"ERR INVALID-ARGUMENT\n", false⟩ := by
  constructor
  · have hl : "GET UPSDESC " ++ d = joinTokens ["GET", "UPSDESC", d] := rfl
    rw [hl, handleUPSCommand_joinTokens _ _ _ (by simpa using hsp)]
    simp [dispatch, hne, Fprint_empty]
  · have hl : "GET UPSDESC" = joinTokens ["GET", "UPSDESC"] := rfl
    rw [hl, handleUPSCommand_joinTokens _ _ _ (by decide)]
    rfl

/-- The request `GET UPSDESC FakeUPS` against the default registry. -/
theorem get_upsdesc_reply_witness :
    handleUPSCommand (NewFakeNUTServer emptyEnv) ("GET UPSDESC " ++ "FakeUPS") =
        ⟨"UPSDESC " ++ "FakeUPS" ++ " \"Fake UPS Device\"\n", false⟩ ∧
    handleUPSCommand (NewFakeNUTServer emptyEnv) "GET UPSDESC" =
        ⟨"ERR INVALID-ARGUMENT\n", false⟩ :=
  get_upsdesc_reply (NewFakeNUTServer emptyEnv) "FakeUPS" (by decide) (by decide)

theorem cmddesc_line_eq (d c : String) :
    "GET CMDDESC " ++ d ++ " " ++ c = joinTokens ["GET", "CMDDESC", d, c] := by
  apply String.ext
  simp only [joinTokens, String.data_append, List.append_assoc]
  rfl

/-- C10: `GET CMDDESC d c` is answered by exactly `ERR INVALID-ARGUMENT\n` if and
only if the device token `d` or the command-name token `c` is empty (an absent
token counts as empty), and by exactly `CMDDESC d c "Description unavailable"\n`
otherwise. -/
theorem get_cmddesc_reply (fakeNUTServer : FakeNUTServer) (d c : String)
    (hd : ' ' ∉ d.data) (hc : ' ' ∉ c.data) :
    (handleUPSCommand fakeNUTServer ("GET CMDDESC " ++ d ++ " " ++ c) =
        ⟨"ERR INVALID-ARGUMENT\n", false⟩ ↔ (d = "" ∨ c = "")) ∧
    (¬ (d = "" ∨ c = "") →
      handleUPSCommand fakeNUTServer ("GET CMDDESC " ++ d ++ " " ++ c) =
        ⟨"CMDDESC " ++ d ++ " " ++ c ++ " \"Description unavailable\"\n", false⟩) ∧
    handleUPSCommand fakeNUTServer ("GET CMDDESC " ++ d) = ⟨"ERR INVALID-ARGUMENT\n", false⟩ ∧
    handleUPSCommand fakeNUTServer "GET CMDDESC" = ⟨"ERR INVALID-ARGUMENT\n", false⟩ := by
  have htok : ∀ t ∈ ["GET", "CMDDESC", d, c], ' ' ∉ t.data := by
    intro t ht
    simp only [List.mem_cons, List.mem_singleton, List.not_mem_nil, or_false] at ht
    rcases ht with rfl | rfl | rfl | rfl
    · decide
    · decide
    · exact hd
    · exact hc
  have hgood : ¬ (d = "" ∨ c = "") →
      handleUPSCommand fakeNUTServer ("GET CMDDESC " ++ d ++ " " ++ c) =
        ⟨"CMDDESC " ++ d ++ " " ++ c ++ " \"Description unavailable\"\n", false⟩ := by
    intro hne
    rw [cmddesc_line_eq, handleUPSCommand_joinTokens _ _ _ htok]
    have h1 : d ≠ "" := fun e => hne (Or.inl e)
    have h2 : c ≠ "" := fun e => hne (Or.inr e)
    simp [dispatch, h1, h2, Fprint_empty]
  refine ⟨⟨?_, ?_⟩, hgood, ?_, ?_⟩
  · intro h
    by_contra hne
    rw [hgood hne] at h
    have := congrArg (fun o => o.written.data.head?) h
    simp [String.data_append] at this
  · intro h
    rw [cmddesc_line_eq, handleUPSCommand_joinTokens _ _ _ htok]
    rcases h with h | h
    · simp [dispatch, h]; rfl
    · by_cases h1 : d = ""
      · simp [dispatch, h1]; rfl
      · simp [dispatch, h, h1]; rfl
  · have hl : "GET CMDDESC " ++ d = joinTokens ["GET", "CMDDESC", d] := rfl
    rw [hl, handleUPSCommand_joinTokens _ _ _ (by simpa using hd)]
    by_cases h1 : d = ""
    · simp [dispatch, h1]; rfl
    · simp [dispatch, h1]; rfl
  · have hl : "GET CMDDESC" = joinTokens ["GET", "CMDDESC"] := rfl
    rw [hl, handleUPSCommand_joinTokens _ _ _ (by decide)]
    rfl

/-- The requests `GET CMDDESC FakeUPS load.off` and `GET CMDDESC FakeUPS`
against the default registry. -/
theorem get_cmddesc_reply_witness :
    (handleUPSCommand (NewFakeNUTServer emptyEnv) ("GET CMDDESC " ++ "FakeUPS" ++ " " ++ "load.off") =
        ⟨"ERR INVALID-ARGUMENT\n", false⟩ ↔ ("FakeUPS" = "" ∨ "load.off" = "")) ∧
    (¬ ("FakeUPS" = "" ∨ "load.off" = "") →
      handleUPSCommand (NewFakeNUTServer emptyEnv) ("GET CMDDESC " ++ "FakeUPS" ++ " " ++ "load.off") =
        ⟨"CMDDESC " ++ "FakeUPS" ++ " " ++ "load.off" ++ " \"Description unavailable\"\n", false⟩) ∧
    handleUPSCommand (NewFakeNUTServer emptyEnv) ("GET CMDDESC " ++ "FakeUPS") =
        ⟨"ERR INVALID-ARGUMENT\n", false⟩ ∧
    handleUPSCommand (NewFakeNUTServer emptyEnv) "GET CMDDESC" = ⟨"ERR INVALID-ARGUMENT\n", false⟩ :=
  get_cmddesc_reply (NewFakeNUTServer emptyEnv) "FakeUPS" "load.off" (by decide) (by decide)

/-! ## `LIST UPS` -/

theorem listUPSLoop_eq (conn : String) (devices : List (String × Option FakeNUTDevice)) :
    listUPSLoop conn devices = conn ++ unlines (devices.map fun e => upsLine e.1) := by
  unfold listUPSLoop
  induction devices generalizing conn with
  | nil => exact String.ext (by simp [unlines, String.data_append])
  | cons e es ih =>
    rw [List.foldl_cons, ih]
    apply String.ext
    simp [unlines, upsLine, Fprint, String.data_append]

theorem unlines_append (xs ys : List String) : unlines (xs ++ ys) = unlines xs ++ unlines ys := by
  induction xs with
  | nil => exact String.ext (by simp [unlines, String.data_append])
  | cons x xs ih =>
    have h : unlines (x :: xs ++ ys) = x ++ "\n" ++ unlines (xs ++ ys) := rfl
    have h2 : unlines (x :: xs) = x ++ "\n" ++ unlines xs := rfl
    rw [h, ih, h2]
    exact String.ext (by simp [String.data_append])

theorem upsLine_injective : Function.Injective upsLine := by
  intro a b h
  have := congrArg String.data h
  simp [upsLine, String.data_append] at this
  exact String.ext this

/-- C8: for every registry the reply to `LIST UPS` is the line `BEGIN LIST UPS`,
then one line `UPS <name> "Description unavailable"` per registry entry, in the
order of the enumeration, and no other data line, then `END LIST UPS`; the
data lines are pairwise distinct when the keys are (as the keys of a map are);
for the registry of `NewFakeNUTServer` the reply is exactly
`BEGIN LIST UPS\nUPS FakeUPS "Description unavailable"\nEND LIST UPS\n`. -/
theorem list_ups_reply (fakeNUTServer : FakeNUTServer) :
    handleUPSCommand fakeNUTServer "LIST UPS" =
      ⟨unlines (["BEGIN LIST UPS"] ++ (fakeNUTServer.Devices.map Prod.fst).map upsLine ++
        ["END LIST UPS"]), false⟩ ∧
    ((fakeNUTServer.Devices.map Prod.fst).Nodup →
      ((fakeNUTServer.Devices.map Prod.fst).map upsLine).Nodup) ∧
    ∀ env : Env, handleUPSCommand (NewFakeNUTServer env) "LIST UPS" =
      ⟨"BEGIN LIST UPS\nUPS FakeUPS \"Description unavailable\"\nEND LIST UPS\n", false⟩ := by
  have hl : "LIST UPS" = joinTokens ["LIST", "UPS"] := rfl
  have key : ∀ srv : FakeNUTServer, handleUPSCommand srv "LIST UPS" =
      ⟨unlines (["BEGIN LIST UPS"] ++ (srv.Devices.map Prod.fst).map upsLine ++
        ["END LIST UPS"]), false⟩ := by
    intro srv
    rw [hl, handleUPSCommand_joinTokens _ _ _ (by decide)]
    simp only [dispatch, List.getD_cons_zero]
    simp only [show ("LIST" = "HELP") = False from by decide, show ("LIST" = "VER") = False from by decide,
      show ("LIST" = "GET") = False from by decide, if_false, if_true]
    rw [listUPSLoop_eq, unlines_append, unlines_append]
    simp only [List.map_map]
    apply congrArg (fun w => Outcome.mk w false)
    apply String.ext
    simp [Fprintln, unlines, String.data_append, Function.comp_def]
  refine ⟨key fakeNUTServer, fun h => h.map upsLine_injective, fun env => ?_⟩
  rw [key, NewFakeNUTServer_Devices]
  rfl

/-- The registry of `NewFakeNUTServer` has pairwise distinct keys. -/
theorem list_ups_reply_witness :
    ((NewFakeNUTServer emptyEnv).Devices.map Prod.fst).Nodup ∧
    (((NewFakeNUTServer emptyEnv).Devices.map Prod.fst).map upsLine).Nodup :=
  ⟨by decide, (list_ups_reply (NewFakeNUTServer emptyEnv)).2.1 (by decide)⟩

/-! ## `LIST VAR` -/

theorem listVARLoop_eq (conn subCmdVal : String) (fields : List (String × Value)) :
    listVARLoop conn subCmdVal fields =
      conn ++ unlines (fields.map fun f => varLine subCmdVal f.1 (fmtS f.2)) := by
  unfold listVARLoop
  induction fields generalizing conn with
  | nil => exact String.ext (by simp [unlines, String.data_append])
  | cons f fs ih =>
    rw [List.foldl_cons, ih]
    apply String.ext
    simp [unlines, varLine, Fprint, String.data_append]

theorem list_var_line_eq (d : String) : "LIST VAR " ++ d = joinTokens ["LIST", "VAR", d] := rfl

theorem dispatch_list_var (srv : FakeNUTServer) (d w : String) (hne : d ≠ "") :
    dispatch srv "LIST" "VAR" d w =
      match (srv.Devices.lookup d).getD none with
      | none =>
        ⟨(if (srv.Devices.lookup d).isSome then "BEGIN LIST VAR " ++ d ++ "\n"
          else "BEGIN LIST VAR " ++ d ++ "\n" ++ ("ERR NOSUCHCMD " ++ d ++ "\n")), true⟩
      | some device =>
        ⟨listVARLoop
          (if (srv.Devices.lookup d).isSome then "BEGIN LIST VAR " ++ d ++ "\n"
            else "BEGIN LIST VAR " ++ d ++ "\n" ++ ("ERR NOSUCHCMD " ++ d ++ "\n"))
          d device.fields ++ ("END LIST VAR " ++ d ++ "\n"), false⟩ := by
  simp only [dispatch]
  simp only [show ("LIST" = "HELP") = False from by decide,
    show ("LIST" = "VER") = False from by decide, show ("LIST" = "GET") = False from by decide,
    show ("VAR" = "UPS") = False from by decide, show ("VAR" = "CLIENT") = False from by decide,
    show ("VAR" = "CMD") = False from by decide, if_false, if_true, hne, Fprint_empty]
  cases h : List.lookup d srv.Devices <;> simp [Fprint]

/-- The reply to `LIST VAR d` when the registry maps `d` to a device. -/
theorem list_var_found (srv : FakeNUTServer) (d : String) (device : FakeNUTDevice)
    (hne : d ≠ "") (hsp : ' ' ∉ d.data)
    (hfound : srv.Devices.lookup d = some (some device)) :
    handleUPSCommand srv ("LIST VAR " ++ d) =
      ⟨unlines (["BEGIN LIST VAR " ++ d] ++
        (device.fields.map fun f => varLine d f.1 (fmtS f.2)) ++ ["END LIST VAR " ++ d]),
        false⟩ := by
  rw [list_var_line_eq, handleUPSCommand_joinTokens _ _ _ (by simpa using hsp)]
  simp only [List.getD_cons_zero, List.getD_cons_succ]
  rw [dispatch_list_var _ _ _ hne, hfound]
  simp only [Option.getD_some, Option.isSome_some, if_true]
  rw [listVARLoop_eq, unlines_append, unlines_append]
  apply congrArg (fun w => Outcome.mk w false)
  apply String.ext
  simp [unlines, String.data_append]

/-- The outcome of `LIST VAR d` when `d` is not a key of the registry: the
opening line and the error line are written, then the handler panics. -/
theorem list_var_missing (srv : FakeNUTServer) (d : String)
    (hne : d ≠ "") (hsp : ' ' ∉ d.data) (hkey : d ∉ srv.Devices.map Prod.fst) :
    handleUPSCommand srv ("LIST VAR " ++ d) =
      ⟨unlines ["BEGIN LIST VAR " ++ d, "ERR NOSUCHCMD " ++ d], true⟩ := by
  have hlook : srv.Devices.lookup d = none := by
    rw [List.lookup_eq_none_iff]
    intro p hp
    have hpd : d ≠ p.1 := fun e => hkey (List.mem_map.mpr ⟨p, hp, e.symm⟩)
    simpa using hpd
  rw [list_var_line_eq, handleUPSCommand_joinTokens _ _ _ (by simpa using hsp)]
  simp only [List.getD_cons_zero, List.getD_cons_succ]
  rw [dispatch_list_var _ _ _ hne, hlook]
  simp only [Option.getD_none, Option.isSome_none]
  apply congrArg (fun w => Outcome.mk w true)
  apply String.ext
  simp [unlines, String.data_append]

theorem zipWith_map_fields {α : Type} (g : String → String → String) (h : α → String)
    (l : List (String × α)) :
    List.zipWith g (l.map Prod.fst) (l.map fun f => h f.2) = l.map fun f => g f.1 (h f.2) := by
  induction l with
  | nil => rfl
  | cons x xs ih => simp [ih]

set_option maxRecDepth 100000 in
/-- C2: for the registry built by `NewFakeNUTServer` (in every environment) the
reply to `LIST VAR FakeUPS` consists of exactly 44 newline-terminated lines:
`BEGIN LIST VAR FakeUPS`, then for each of the 42 variable names, in order, a
line `VAR FakeUPS <name> "<value>"`, then `END LIST VAR FakeUPS`. -/
theorem list_var_default_block (env : Env) :
    ∃ values : List String, values.length = 42 ∧ variableNames.length = 42 ∧
      (["BEGIN LIST VAR FakeUPS"] ++ List.zipWith (varLine "FakeUPS") variableNames values ++
        ["END LIST VAR FakeUPS"]).length = 44 ∧
      (∀ l ∈ ["BEGIN LIST VAR FakeUPS"] ++ List.zipWith (varLine "FakeUPS") variableNames values ++
        ["END LIST VAR FakeUPS"], '\n' ∉ l.data) ∧
      handleUPSCommand (NewFakeNUTServer env) "LIST VAR FakeUPS" =
        ⟨unlines (["BEGIN LIST VAR FakeUPS"] ++
          List.zipWith (varLine "FakeUPS") variableNames values ++
          ["END LIST VAR FakeUPS"]), false⟩ := by
  refine ⟨(FakeNUTDevice.fields NewFakeNUTServer.device).map (fun f => fmtS f.2),
    by decide, by decide, by decide, by decide, ?_⟩
  have h := list_var_found (NewFakeNUTServer env) "FakeUPS" NewFakeNUTServer.device
    (by decide) (by decide) (by rw [NewFakeNUTServer_Devices]; rfl)
  rw [variableNames, zipWith_map_fields]
  exact h

set_option maxRecDepth 100000 in
/-- C3: in the reply to `LIST VAR FakeUPS` for the default registry a string
value is printed as itself (`ups.status "OL"`), but an integer value is not
printed as its decimal digits: the verb `%s` applied to an integer yields
`%!s(int=100)` for `battery.charge` and `%!s(int=-60)` for `ups.timer.shutdown`,
and the lines with `"100"` and `"-60"` do not occur. -/
theorem list_var_integer_values_bad_verb :
    "VAR FakeUPS ups.status \"OL\"" ∈
      Split (handleUPSCommand (NewFakeNUTServer emptyEnv) "LIST VAR FakeUPS").written '\n' ∧
    "VAR FakeUPS battery.charge \"%!s(int=100)\"" ∈
      Split (handleUPSCommand (NewFakeNUTServer emptyEnv) "LIST VAR FakeUPS").written '\n' ∧
    "VAR FakeUPS battery.charge \"100\"" ∉
      Split (handleUPSCommand (NewFakeNUTServer emptyEnv) "LIST VAR FakeUPS").written '\n' ∧
    "VAR FakeUPS ups.timer.shutdown \"%!s(int=-60)\"" ∈
      Split (handleUPSCommand (NewFakeNUTServer emptyEnv) "LIST VAR FakeUPS").written '\n' ∧
    "VAR FakeUPS ups.timer.shutdown \"-60\"" ∉
      Split (handleUPSCommand (NewFakeNUTServer emptyEnv) "LIST VAR FakeUPS").written '\n' := by
  decide!

set_option maxRecDepth 100000 in
/-- C4: in the reply to `LIST VAR FakeUPS` for the default registry the
floating-point variables are not printed with one decimal digit: the verb `%s`
applied to a float yields `%!s(float64=50)`, `%!s(float64=232.6)` and
`%!s(float64=2.3)`, and none of the lines with `"50.0"`, `"232.6"` or `"2.3"`
occurs. -/
theorem list_var_float_values_bad_verb :
    ["VAR FakeUPS input.frequency \"%!s(float64=50)\"",
      "VAR FakeUPS output.frequency \"%!s(float64=50)\"",
      "VAR FakeUPS input.voltage \"%!s(float64=232.6)\"",
      "VAR FakeUPS output.voltage \"%!s(float64=2.3)\""] ⊆
      Split (handleUPSCommand (NewFakeNUTServer emptyEnv) "LIST VAR FakeUPS").written '\n' ∧
    ∀ l ∈ ["VAR FakeUPS input.frequency \"50.0\"", "VAR FakeUPS output.frequency \"50.0\"",
        "VAR FakeUPS input.voltage \"232.6\"", "VAR FakeUPS output.voltage \"2.3\""],
      l ∉ Split (handleUPSCommand (NewFakeNUTServer emptyEnv) "LIST VAR FakeUPS").written '\n' := by
  constructor
  · intro l hl
    simp only [List.mem_cons, List.mem_singleton, List.not_mem_nil, or_false] at hl
    rcases hl with rfl | rfl | rfl | rfl <;> decide!
  · decide!

/-! ## `LIST VAR` for a device that is not in the registry -/

/-- For a non-empty device name `d` that is not a key of the registry, the text
written in reply to `LIST VAR d` is made of two newline-terminated lines, the
second of which is `ERR NOSUCHCMD d`. -/
theorem list_var_missing_error_line (srv : FakeNUTServer) (d : String)
    (hne : d ≠ "") (hsp : ' ' ∉ d.data) (hnl : '\n' ∉ d.data)
    (hkey : d ∉ srv.Devices.map Prod.fst) :
    ∃ ls : List String,
      (handleUPSCommand srv ("LIST VAR " ++ d)).written = unlines ls ∧
      (∀ l ∈ ls, '\n' ∉ l.data) ∧ "ERR NOSUCHCMD " ++ d ∈ ls := by
  refine ⟨["BEGIN LIST VAR " ++ d, "ERR NOSUCHCMD " ++ d], ?_, ?_, by simp⟩
  · rw [list_var_missing _ _ hne hsp hkey]
  · intro l hl
    simp only [List.mem_cons, List.mem_singleton, List.not_mem_nil, or_false] at hl
    rcases hl with rfl | rfl
    · simp only [String.data_append, List.mem_append, not_or]
      exact ⟨by decide, hnl⟩
    · simp only [String.data_append, List.mem_append, not_or]
      exact ⟨by decide, hnl⟩

/-- C5: against the default registry the text written for `LIST VAR Nonexistent`
includes the line `ERR NOSUCHCMD Nonexistent`, but repeating the request does
not yield the same output: the first request ends in a panic of the handler,
which ends the process, so of the two requests sent on a connection only the
first is answered and the repeated one gets no output at all. -/
theorem repeated_list_var_unknown_device_unanswered :
    "ERR NOSUCHCMD Nonexistent" ∈
      Split (handleUPSCommand (NewFakeNUTServer emptyEnv) "LIST VAR Nonexistent").written
        '\n' ∧
    Start.connection (NewFakeNUTServer emptyEnv) "LIST VAR Nonexistent\n" =
      [⟨"BEGIN LIST VAR Nonexistent\nERR NOSUCHCMD Nonexistent\n", true⟩] ∧
    Start.connection (NewFakeNUTServer emptyEnv)
        "LIST VAR Nonexistent\nLIST VAR Nonexistent\n" =
      [⟨"BEGIN LIST VAR Nonexistent\nERR NOSUCHCMD Nonexistent\n", true⟩] ∧
    (Start.connection (NewFakeNUTServer emptyEnv)
        "LIST VAR Nonexistent\nLIST VAR Nonexistent\n").length = 1 := by
  decide

/-- C6: against the default registry the request `LIST VAR Nonexistent` writes
the opening line and the error line and nothing more: the handler panics on the
fields of the missing device, and the closing line `END LIST VAR Nonexistent`
is never written. -/
theorem list_var_unknown_device_no_closing_line :
    handleUPSCommand (NewFakeNUTServer emptyEnv) "LIST VAR Nonexistent" =
      ⟨"BEGIN LIST VAR Nonexistent\nERR NOSUCHCMD Nonexistent\n", true⟩ ∧
    "END LIST VAR Nonexistent" ∉
      Split (handleUPSCommand (NewFakeNUTServer emptyEnv) "LIST VAR Nonexistent").written
        '\n' := by
  decide

/-- C7: the handler does not complete normally on every line: against the
default registry the request `LIST VAR Nonexistent` ends in a runtime panic, and
so does `LIST VAR FakeUPS` when the registry holds a nil pointer for `FakeUPS`. -/
theorem handler_panics_on_missing_device :
    (handleUPSCommand (NewFakeNUTServer emptyEnv) "LIST VAR Nonexistent").panicked = true ∧
    (handleUPSCommand ⟨"localhost", "3493", [("FakeUPS", none)]⟩ "LIST VAR FakeUPS") =
      ⟨"BEGIN LIST VAR FakeUPS\n", true⟩ := by
  decide

/-! ## Where the handler returns and where it panics -/

theorem endsWithNewline_append (a b : String) (h : EndsWithNewline b) :
    EndsWithNewline (a ++ b) := by
  unfold EndsWithNewline at *
  simp [String.data_append, List.getLast?_append, h]

theorem returned_Fprintln (conn s : String) : Returned ⟨Fprintln conn s, false⟩ :=
  ⟨rfl, endsWithNewline_append _ _ (by decide)⟩

theorem returned_Fprint (conn s : String) (h : EndsWithNewline s) :
    Returned ⟨Fprint conn s, false⟩ :=
  ⟨rfl, endsWithNewline_append _ _ h⟩

theorem returned_ite {c : Prop} [Decidable c] {a b : Outcome} (ha : Returned a)
    (hb : Returned b) : Returned (if c then a else b) := by
  split <;> assumption

theorem returned_ite_neg {c : Prop} [Decidable c] {a b : Outcome} (hc : ¬c)
    (hb : Returned b) : Returned (if c then a else b) := by
  rw [if_neg hc]
  exact hb

theorem dispatch_returned_of_ne_LIST (srv : FakeNUTServer)
    (cmd subCmd subCmdVal subCmdVar : String) (h : cmd ≠ "LIST") :
    Returned (dispatch srv cmd subCmd subCmdVal subCmdVar) := by
  unfold dispatch
  with_reducible
    repeat' first
      | exact returned_Fprintln _ _
      | exact returned_Fprint _ _ (by decide)
      | exact returned_Fprint _ _ (endsWithNewline_append _ _ (by decide))
      | refine returned_ite_neg h ?_
      | apply returned_ite

theorem dispatch_LIST_returned_of_ne_VAR (srv : FakeNUTServer)
    (subCmd subCmdVal subCmdVar : String) (h : subCmd ≠ "VAR") :
    Returned (dispatch srv "LIST" subCmd subCmdVal subCmdVar) := by
  unfold dispatch
  have h1 : ¬ "LIST" = "HELP" := by decide
  have h2 : ¬ "LIST" = "VER" := by decide
  have h3 : ¬ "LIST" = "GET" := by decide
  refine returned_ite_neg h1 (returned_ite_neg h2 (returned_ite_neg h3 ?_))
  rw [if_pos rfl]
  with_reducible
    repeat' first
      | exact returned_Fprintln _ _
      | exact returned_Fprint _ _ (endsWithNewline_append _ _ (by decide))
      | refine returned_ite_neg h ?_
      | apply returned_ite

/-- Every run of the `switch` either returns, having written a non-empty text
that ends with a newline, or panics, and it panics only in `LIST VAR d` with a
non-empty `d` for which the registry has no device (no entry, or a nil one). -/
theorem dispatch_returned_or_panicked (srv : FakeNUTServer)
    (cmd subCmd subCmdVal subCmdVar : String) :
    Returned (dispatch srv cmd subCmd subCmdVal subCmdVar) ∨
    ((dispatch srv cmd subCmd subCmdVal subCmdVar).panicked = true ∧
      cmd = "LIST" ∧ subCmd = "VAR" ∧ subCmdVal ≠ "" ∧
      (srv.Devices.lookup subCmdVal).getD none = none) := by
  by_cases h1 : cmd = "LIST"
  · subst h1
    by_cases h2 : subCmd = "VAR"
    · subst h2
      by_cases h3 : subCmdVal = ""
      · subst h3
        exact Or.inl (returned_Fprintln _ _)
      · rw [dispatch_list_var _ _ _ h3]
        cases h4 : (List.lookup subCmdVal srv.Devices).getD none with
        | none => exact Or.inr ⟨rfl, rfl, rfl, h3, rfl⟩
        | some device =>
          exact Or.inl ⟨rfl, endsWithNewline_append _ _ (endsWithNewline_append _ _ (by decide))⟩
    · exact Or.inl (dispatch_LIST_returned_of_ne_VAR _ _ _ _ h2)
  · exact Or.inl (dispatch_returned_of_ne_LIST _ _ _ _ _ h1)

/-- Every call of the handler either returns, having written a non-empty text
that ends with a newline, or panics; it panics only when the line is
`LIST VAR d ...` with a non-empty `d` for which the registry has no device. -/
theorem handleUPSCommand_returned_or_panicked (srv : FakeNUTServer) (command : String) :
    Returned (handleUPSCommand srv command) ∨
    ((handleUPSCommand srv command).panicked = true ∧
      ∃ d : String, d ≠ "" ∧ (Split command ' ').take 3 = ["LIST", "VAR", d] ∧
        (srv.Devices.lookup d).getD none = none) := by
  cases hs : Split command ' ' with
  | nil => exact absurd hs (Split_ne_nil _ _)
  | cons cmd rest =>
    rw [handleUPSCommand_of_Split srv command cmd rest hs]
    rcases dispatch_returned_or_panicked srv cmd (rest.getD 0 "") (rest.getD 1 "")
      (rest.getD 2 "") with h | ⟨hp, h1, h2, h3, h4⟩
    · exact Or.inl h
    · refine Or.inr ⟨hp, rest.getD 1 "", h3, ?_, h4⟩
      subst h1
      rcases rest with _ | ⟨a, _ | ⟨b, r⟩⟩
      · simp at h2
      · simp at h3
      · simp at h2
        simp [h2]

/-! ## The tokens of a line -/

theorem token_zero (command : String) : token command 0 = firstToken command := by
  cases hs : Split command ' ' with
  | nil => exact absurd hs (Split_ne_nil _ _)
  | cons cmd rest =>
    have hh := Split_head command ' '
    rw [hs] at hh
    simp only [token, hs, List.getD_cons_zero]
    exact Option.some.inj hh

theorem handleUPSCommand_tokens (srv : FakeNUTServer) (command : String) :
    handleUPSCommand srv command =
      dispatch srv (firstToken command) (token command 1) (token command 2)
        (token command 3) := by
  rw [← token_zero]
  cases hs : Split command ' ' with
  | nil => exact absurd hs (Split_ne_nil _ _)
  | cons cmd rest =>
    rw [handleUPSCommand_of_Split srv command cmd rest hs]
    simp [token, hs]

/-! ## Commands that ignore their arguments -/

theorem dispatch_SET (srv : FakeNUTServer) (s v w : String) :
    dispatch srv "SET" s v w = ⟨"ERR INVALID ARGUMENT\n", false⟩ := by
  simp [dispatch]
  rfl

/-- C16: a line whose primary token is `SET` gets, whatever follows it and
whatever the registry, exactly `ERR INVALID ARGUMENT\n`, with a space between
`INVALID` and `ARGUMENT`. -/
theorem set_reply (fakeNUTServer : FakeNUTServer) (command : String)
    (h : firstToken command = "SET") :
    handleUPSCommand fakeNUTServer command = ⟨"ERR INVALID ARGUMENT\n", false⟩ := by
  rw [handleUPSCommand_tokens, h]
  exact dispatch_SET _ _ _ _

/-- The lines `SET anything` and `SET ups.status FakeUPS OB`. -/
theorem set_reply_witness :
    handleUPSCommand (NewFakeNUTServer emptyEnv) "SET anything" =
      ⟨"ERR INVALID ARGUMENT\n", false⟩ ∧
    handleUPSCommand (NewFakeNUTServer emptyEnv) "SET" = ⟨"ERR INVALID ARGUMENT\n", false⟩ :=
  ⟨set_reply _ "SET anything" (by decide), set_reply _ "SET" (by decide)⟩

theorem dispatch_OK (srv : FakeNUTServer) (cmd s v w : String)
    (h : cmd ∈ ["LOGIN", "LOGOUT", "USERNAME", "PASSWORD"]) :
    dispatch srv cmd s v w = ⟨"OK\n", false⟩ := by
  simp only [List.mem_cons, List.mem_singleton, List.not_mem_nil, or_false] at h
  rcases h with rfl | rfl | rfl | rfl <;> simp [dispatch] <;> rfl

/-- C18: a line whose primary token is `LOGIN`, `LOGOUT`, `USERNAME` or
`PASSWORD` gets, whatever arguments follow (none included) and whatever the
registry, exactly `OK\n`. -/
theorem login_family_reply (fakeNUTServer : FakeNUTServer) (command : String)
    (h : firstToken command ∈ ["LOGIN", "LOGOUT", "USERNAME", "PASSWORD"]) :
    handleUPSCommand fakeNUTServer command = ⟨"OK\n", false⟩ := by
  rw [handleUPSCommand_tokens]
  exact dispatch_OK _ _ _ _ _ h

/-- The lines `LOGIN`, `LOGOUT FakeUPS`, `USERNAME x` and `PASSWORD y z`. -/
theorem login_family_reply_witness :
    handleUPSCommand (NewFakeNUTServer emptyEnv) "LOGIN" = ⟨"OK\n", false⟩ ∧
    handleUPSCommand (NewFakeNUTServer emptyEnv) "LOGOUT FakeUPS" = ⟨"OK\n", false⟩ ∧
    handleUPSCommand (NewFakeNUTServer emptyEnv) "USERNAME x" = ⟨"OK\n", false⟩ ∧
    handleUPSCommand (NewFakeNUTServer emptyEnv) "PASSWORD y z" = ⟨"OK\n", false⟩ :=
  ⟨login_family_reply _ "LOGIN" (by decide), login_family_reply _ "LOGOUT FakeUPS" (by decide),
   login_family_reply _ "USERNAME x" (by decide), login_family_reply _ "PASSWORD y z" (by decide)⟩

theorem dispatch_INSTCMD (srv : FakeNUTServer) (s v w : String) :
    dispatch srv "INSTCMD" s v w = ⟨"ERR USERNAME-REQUIRED\n", false⟩ := by
  simp [dispatch]
  rfl

theorem dispatch_STARTTLS (srv : FakeNUTServer) (s v w : String) :
    dispatch srv "STARTTLS" s v w = ⟨"ERR FEATURE-NOT-CONFIGURED\n", false⟩ := by
  simp [dispatch]
  rfl

/-- C19: whatever arguments follow and whatever the registry, a line whose
primary token is `INSTCMD` gets exactly `ERR USERNAME-REQUIRED\n` and a line
whose primary token is `STARTTLS` gets exactly `ERR FEATURE-NOT-CONFIGURED\n`. -/
theorem instcmd_starttls_reply (fakeNUTServer : FakeNUTServer) (command : String) :
    (firstToken command = "INSTCMD" →
      handleUPSCommand fakeNUTServer command = ⟨"ERR USERNAME-REQUIRED\n", false⟩) ∧
    (firstToken command = "STARTTLS" →
      handleUPSCommand fakeNUTServer command = ⟨"ERR FEATURE-NOT-CONFIGURED\n", false⟩) := by
  constructor <;> intro h <;> rw [handleUPSCommand_tokens, h]
  · exact dispatch_INSTCMD _ _ _ _
  · exact dispatch_STARTTLS _ _ _ _

/-- The lines `INSTCMD FakeUPS load.off` and `STARTTLS`. -/
theorem instcmd_starttls_reply_witness :
    handleUPSCommand (NewFakeNUTServer emptyEnv) "INSTCMD FakeUPS load.off" =
      ⟨"ERR USERNAME-REQUIRED\n", false⟩ ∧
    handleUPSCommand (NewFakeNUTServer emptyEnv) "STARTTLS" =
      ⟨"ERR FEATURE-NOT-CONFIGURED\n", false⟩ :=
  ⟨(instcmd_starttls_reply _ "INSTCMD FakeUPS load.off").1 (by decide),
   (instcmd_starttls_reply _ "STARTTLS").2 (by decide)⟩

/-! ## `GET` with another sub-command -/

theorem dispatch_GET_default (srv : FakeNUTServer) (s d w : String)
    (h1 : s ≠ "CMDDESC") (h2 : s ≠ "UPSDESC") :
    dispatch srv "GET" s d w =
      if d = "" then ⟨"ERR INVALID-ARGUMENT\n", false⟩
      else ⟨"NUMLOGINS " ++ d ++ " 1\n", false⟩ := by
  by_cases hd : d = "" <;> by_cases hs : s = "NUMLOGINS" <;>
    simp [dispatch, h1, h2, hd, hs, Fprint_empty] <;> rfl

theorem get_line_eq (s d : String) : "GET " ++ s ++ " " ++ d = joinTokens ["GET", s, d] := by
  apply String.ext
  simp only [joinTokens, String.data_append, List.append_assoc]
  rfl

/-- C11: for every sub-command token `s` other than `CMDDESC` and `UPSDESC`
(`NUMLOGINS`, an unrecognised word, the empty token) and every device token
`d`, the reply to `GET s d` is the reply to `GET NUMLOGINS d`, namely
`ERR INVALID-ARGUMENT\n` when `d` is empty and `NUMLOGINS d 1\n` otherwise; a
bare `GET` gets `ERR INVALID-ARGUMENT\n`. -/
theorem get_default_reply (fakeNUTServer : FakeNUTServer) (s d : String)
    (hs : ' ' ∉ s.data) (hd : ' ' ∉ d.data) (h1 : s ≠ "CMDDESC") (h2 : s ≠ "UPSDESC") :
    handleUPSCommand fakeNUTServer ("GET " ++ s ++ " " ++ d) =
      handleUPSCommand fakeNUTServer ("GET NUMLOGINS " ++ d) ∧
    handleUPSCommand fakeNUTServer ("GET NUMLOGINS " ++ d) =
      (if d = "" then ⟨"ERR INVALID-ARGUMENT\n", false⟩
        else ⟨"NUMLOGINS " ++ d ++ " 1\n", false⟩) ∧
    handleUPSCommand fakeNUTServer "GET" = ⟨"ERR INVALID-ARGUMENT\n", false⟩ := by
  have hn : handleUPSCommand fakeNUTServer ("GET NUMLOGINS " ++ d) =
      (if d = "" then ⟨"ERR INVALID-ARGUMENT\n", false⟩
        else ⟨"NUMLOGINS " ++ d ++ " 1\n", false⟩) := by
    have hl : "GET NUMLOGINS " ++ d = joinTokens ["GET", "NUMLOGINS", d] := rfl
    rw [hl, handleUPSCommand_joinTokens _ _ _ (by simpa using hd)]
    exact dispatch_GET_default _ "NUMLOGINS" d _ (by decide) (by decide)
  refine ⟨?_, hn, ?_⟩
  · rw [hn, get_line_eq, handleUPSCommand_joinTokens _ _ _ (by simpa using ⟨hs, hd⟩)]
    exact dispatch_GET_default _ _ _ _ h1 h2
  · have hl : "GET" = joinTokens ["GET"] := rfl
    rw [hl, handleUPSCommand_joinTokens _ _ _ (by decide)]
    exact (dispatch_GET_default _ "" "" "" (by decide) (by decide)).trans (if_pos rfl)

/-- The requests `GET FOO FakeUPS` and `GET NUMLOGINS FakeUPS`. -/
theorem get_default_reply_witness :
    handleUPSCommand (NewFakeNUTServer emptyEnv) ("GET " ++ "FOO" ++ " " ++ "FakeUPS") =
      handleUPSCommand (NewFakeNUTServer emptyEnv) ("GET NUMLOGINS " ++ "FakeUPS") ∧
    handleUPSCommand (NewFakeNUTServer emptyEnv) ("GET NUMLOGINS " ++ "FakeUPS") =
      (if "FakeUPS" = "" then ⟨"ERR INVALID-ARGUMENT\n", false⟩
        else ⟨"NUMLOGINS " ++ "FakeUPS" ++ " 1\n", false⟩) ∧
    handleUPSCommand (NewFakeNUTServer emptyEnv) "GET" = ⟨"ERR INVALID-ARGUMENT\n", false⟩ :=
  get_default_reply (NewFakeNUTServer emptyEnv) "FOO" "FakeUPS" (by decide) (by decide)
    (by decide) (by decide)

/-! ## `LIST CLIENT` and `LIST CMD` -/

theorem dispatch_LIST_CLIENT (srv : FakeNUTServer) (d w : String) (hne : d ≠ "") :
    dispatch srv "LIST" "CLIENT" d w =
      ⟨"BEGIN LIST CLIENT " ++ d ++ "\nCLIENT " ++ d ++ " 127.0.0.1\nEND LIST CLIENT " ++ d ++
        "\n", false⟩ := by
  simp only [dispatch, show ("LIST" = "HELP") = False from by decide,
    show ("LIST" = "VER") = False from by decide, show ("LIST" = "GET") = False from by decide,
    show ("CLIENT" = "UPS") = False from by decide, if_false, if_true, hne, Fprint_empty]
  apply congrArg (fun t => Outcome.mk t false)
  apply String.ext
  simp only [Fprint, String.data_append, List.append_assoc]
  rfl

/-- C13: for a non-empty device token `d`, `LIST CLIENT d` is answered by
exactly `BEGIN LIST CLIENT d\nCLIENT d 127.0.0.1\nEND LIST CLIENT d\n`. -/
theorem list_client_reply (fakeNUTServer : FakeNUTServer) (d : String)
    (hne : d ≠ "") (hsp : ' ' ∉ d.data) :
    handleUPSCommand fakeNUTServer ("LIST CLIENT " ++ d) =
      ⟨"BEGIN LIST CLIENT " ++ d ++ "\nCLIENT " ++ d ++ " 127.0.0.1\nEND LIST CLIENT " ++ d ++
        "\n", false⟩ := by
  have hl : "LIST CLIENT " ++ d = joinTokens ["LIST", "CLIENT", d] := rfl
  rw [hl, handleUPSCommand_joinTokens _ _ _ (by simpa using hsp)]
  exact dispatch_LIST_CLIENT _ d _ hne

/-- The request `LIST CLIENT FakeUPS` against the default registry. -/
theorem list_client_reply_witness :
    handleUPSCommand (NewFakeNUTServer emptyEnv) ("LIST CLIENT " ++ "FakeUPS") =
      ⟨"BEGIN LIST CLIENT " ++ "FakeUPS" ++ "\nCLIENT " ++ "FakeUPS" ++
        " 127.0.0.1\nEND LIST CLIENT " ++ "FakeUPS" ++ "\n", false⟩ :=
  list_client_reply (NewFakeNUTServer emptyEnv) "FakeUPS" (by decide) (by decide)

set_option maxRecDepth 10000 in
theorem dispatch_LIST_CMD (srv : FakeNUTServer) (d w : String) (hne : d ≠ "") :
    dispatch srv "LIST" "CMD" d w =
      ⟨unlines (["BEGIN LIST CMD " ++ d] ++ instantCommands.map (fun n => "CMD " ++ d ++ " " ++ n)
        ++ ["END LIST CMD " ++ d]), false⟩ := by
  simp only [dispatch, show ("LIST" = "HELP") = False from by decide,
    show ("LIST" = "VER") = False from by decide, show ("LIST" = "GET") = False from by decide,
    show ("CMD" = "UPS") = False from by decide, show ("CMD" = "CLIENT") = False from by decide,
    if_false, if_true, hne, Fprint_empty]
  apply congrArg (fun t => Outcome.mk t false)
  apply String.ext
  simp only [Fprint, unlines, instantCommands, List.map, List.cons_append, List.nil_append,
    List.foldr, String.data_append, List.append_assoc]

theorem cmdLine_injective (d : String) :
    Function.Injective (fun n : String => "CMD " ++ d ++ " " ++ n) := by
  intro a b h
  have := congrArg String.data h
  simp [String.data_append] at this
  exact String.ext this

/-- C12: for a non-empty device token `d`, `LIST CMD d` is answered by a block
of exactly 17 newline-terminated lines: `BEGIN LIST CMD d`, then one line
`CMD d <name>` for each of the 15 names of the fixed catalog, in its order, the
names and the lines pairwise distinct, then `END LIST CMD d`. -/
theorem list_cmd_reply (fakeNUTServer : FakeNUTServer) (d : String)
    (hne : d ≠ "") (hsp : ' ' ∉ d.data) (hnl : '\n' ∉ d.data) :
    handleUPSCommand fakeNUTServer ("LIST CMD " ++ d) =
      ⟨unlines (["BEGIN LIST CMD " ++ d] ++ instantCommands.map (fun n => "CMD " ++ d ++ " " ++ n)
        ++ ["END LIST CMD " ++ d]), false⟩ ∧
    (["BEGIN LIST CMD " ++ d] ++ instantCommands.map (fun n => "CMD " ++ d ++ " " ++ n)
        ++ ["END LIST CMD " ++ d]).length = 17 ∧
    (∀ l ∈ ["BEGIN LIST CMD " ++ d] ++ instantCommands.map (fun n => "CMD " ++ d ++ " " ++ n)
        ++ ["END LIST CMD " ++ d], '\n' ∉ l.data) ∧
    instantCommands.length = 15 ∧ instantCommands.Nodup ∧
    (instantCommands.map (fun n => "CMD " ++ d ++ " " ++ n)).Nodup := by
  have hl : "LIST CMD " ++ d = joinTokens ["LIST", "CMD", d] := rfl
  have hcat : ∀ n ∈ instantCommands, '\n' ∉ n.data := by decide
  refine ⟨?_, by simp [instantCommands], ?_, by decide, by decide,
    List.Nodup.map (cmdLine_injective d) (by decide)⟩
  · rw [hl, handleUPSCommand_joinTokens _ _ _ (by simpa using hsp)]
    exact dispatch_LIST_CMD _ d _ hne
  · intro l hl
    simp only [List.mem_append, List.mem_singleton, List.mem_map] at hl
    rcases hl with (rfl | ⟨n, hn, rfl⟩) | rfl
    · simp only [String.data_append, List.mem_append, not_or]
      exact ⟨by decide, hnl⟩
    · simp only [String.data_append, List.mem_append, not_or]
      exact ⟨⟨⟨by decide, hnl⟩, by decide⟩, hcat n hn⟩
    · simp only [String.data_append, List.mem_append, not_or]
      exact ⟨by decide, hnl⟩

/-- The request `LIST CMD FakeUPS` against the default registry. -/
theorem list_cmd_reply_witness :
    handleUPSCommand (NewFakeNUTServer emptyEnv) ("LIST CMD " ++ "FakeUPS") =
      ⟨unlines (["BEGIN LIST CMD " ++ "FakeUPS"] ++
        instantCommands.map (fun n => "CMD " ++ "FakeUPS" ++ " " ++ n)
        ++ ["END LIST CMD " ++ "FakeUPS"]), false⟩ ∧
    (["BEGIN LIST CMD " ++ "FakeUPS"] ++
        instantCommands.map (fun n => "CMD " ++ "FakeUPS" ++ " " ++ n)
        ++ ["END LIST CMD " ++ "FakeUPS"]).length = 17 ∧
    (∀ l ∈ ["BEGIN LIST CMD " ++ "FakeUPS"] ++
        instantCommands.map (fun n => "CMD " ++ "FakeUPS" ++ " " ++ n)
        ++ ["END LIST CMD " ++ "FakeUPS"], '\n' ∉ l.data) ∧
    instantCommands.length = 15 ∧ instantCommands.Nodup ∧
    (instantCommands.map (fun n => "CMD " ++ "FakeUPS" ++ " " ++ n)).Nodup :=
  list_cmd_reply (NewFakeNUTServer emptyEnv) "FakeUPS" (by decide) (by decide) (by decide)

/-! ## `LIST` without a device or with another sub-command -/

theorem dispatch_LIST_no_device (srv : FakeNUTServer) (s w : String)
    (hs : s ∈ ["CLIENT", "CMD", "VAR"]) :
    dispatch srv "LIST" s "" w = ⟨"ERR INVALID-ARGUMENT\n", false⟩ := by
  simp only [List.mem_cons, List.mem_singleton, List.not_mem_nil, or_false] at hs
  rcases hs with rfl | rfl | rfl <;> simp [dispatch] <;> rfl

theorem dispatch_LIST_other (srv : FakeNUTServer) (s v w : String)
    (hs : s ∉ ["UPS", "CLIENT", "CMD", "VAR"]) :
    dispatch srv "LIST" s v w = ⟨"ERR INVALID-ARGUMENT\n", false⟩ := by
  simp only [List.mem_cons, List.mem_singleton, List.not_mem_nil, or_false, not_or] at hs
  simp [dispatch, hs]
  rfl

/-- C14: for each of `LIST CLIENT`, `LIST CMD` and `LIST VAR`, when the device
token is missing or empty the reply is exactly `ERR INVALID-ARGUMENT\n`, so no
`BEGIN LIST` line, no data line and no `END LIST` line is written. -/
theorem list_missing_device_reply (fakeNUTServer : FakeNUTServer) (command : String)
    (h0 : firstToken command = "LIST") (h1 : token command 1 ∈ ["CLIENT", "CMD", "VAR"])
    (h2 : token command 2 = "") :
    handleUPSCommand fakeNUTServer command = ⟨"ERR INVALID-ARGUMENT\n", false⟩ := by
  rw [handleUPSCommand_tokens, h0, h2]
  exact dispatch_LIST_no_device _ _ _ h1

/-- The lines `LIST CLIENT`, `LIST CMD` and `LIST VAR`, and `LIST VAR` followed
by a space. -/
theorem list_missing_device_reply_witness :
    handleUPSCommand (NewFakeNUTServer emptyEnv) "LIST CLIENT" =
      ⟨"ERR INVALID-ARGUMENT\n", false⟩ ∧
    handleUPSCommand (NewFakeNUTServer emptyEnv) "LIST CMD" =
      ⟨"ERR INVALID-ARGUMENT\n", false⟩ ∧
    handleUPSCommand (NewFakeNUTServer emptyEnv) "LIST VAR" =
      ⟨"ERR INVALID-ARGUMENT\n", false⟩ ∧
    handleUPSCommand (NewFakeNUTServer emptyEnv) "LIST VAR " =
      ⟨"ERR INVALID-ARGUMENT\n", false⟩ :=
  ⟨list_missing_device_reply _ "LIST CLIENT" (by decide) (by decide) (by decide),
   list_missing_device_reply _ "LIST CMD" (by decide) (by decide) (by decide),
   list_missing_device_reply _ "LIST VAR" (by decide) (by decide) (by decide),
   list_missing_device_reply _ "LIST VAR " (by decide) (by decide) (by decide)⟩

/-- C15: for every sub-command token other than `UPS`, `CLIENT`, `CMD` and `VAR`
(the missing one of a bare `LIST` included) and whatever arguments follow, a
`LIST` line gets exactly `ERR INVALID-ARGUMENT\n`. -/
theorem list_other_reply (fakeNUTServer : FakeNUTServer) (command : String)
    (h0 : firstToken command = "LIST")
    (h1 : token command 1 ∉ ["UPS", "CLIENT", "CMD", "VAR"]) :
    handleUPSCommand fakeNUTServer command = ⟨"ERR INVALID-ARGUMENT\n", false⟩ := by
  rw [handleUPSCommand_tokens, h0]
  exact dispatch_LIST_other _ _ _ _ h1

/-- The bare line `LIST` and the lines `LIST RW FakeUPS` and `LIST ups FakeUPS x`. -/
theorem list_other_reply_witness :
    handleUPSCommand (NewFakeNUTServer emptyEnv) "LIST" = ⟨"ERR INVALID-ARGUMENT\n", false⟩ ∧
    handleUPSCommand (NewFakeNUTServer emptyEnv) "LIST RW FakeUPS" =
      ⟨"ERR INVALID-ARGUMENT\n", false⟩ ∧
    handleUPSCommand (NewFakeNUTServer emptyEnv) "LIST ups FakeUPS x" =
      ⟨"ERR INVALID-ARGUMENT\n", false⟩ :=
  ⟨list_other_reply _ "LIST" (by decide) (by decide),
   list_other_reply _ "LIST RW FakeUPS" (by decide) (by decide),
   list_other_reply _ "LIST ups FakeUPS x" (by decide) (by decide)⟩

/-! ## `HELP` and the recognised commands -/

theorem dispatch_HELP (srv : FakeNUTServer) (s v w : String) :
    dispatch srv "HELP" s v w =
      ⟨"Commands: HELP VER GET LIST SET INSTCMD LOGIN LOGOUT USERNAME PASSWORD STARTTLS\n",
        false⟩ := by
  simp [dispatch]
  rfl

theorem recognised_ne (s : String) (h : Recognised s) : s ≠ unknownReply := by
  intro e
  exact h (e ▸ List.prefix_refl _)

theorem recognised_append (a b : String) (h : Recognised a) : Recognised (a ++ b) := by
  intro hp
  apply h
  rw [String.data_append] at hp
  exact (List.prefix_append _ _).trans hp

theorem recognised_Fprint (conn s : String) (h : Recognised conn) : Recognised (Fprint conn s) :=
  recognised_append _ _ h

theorem recognised_Fprintln (conn s : String) (h : Recognised conn) :
    Recognised (Fprintln conn s) :=
  recognised_append _ _ (recognised_append _ _ h)

theorem recognised_Fprint_empty (s : String) (h : Recognised s) : Recognised (Fprint "" s) := by
  rw [Fprint_empty]
  exact h

theorem recognised_listUPSLoop (conn : String) (devices : List (String × Option FakeNUTDevice))
    (h : Recognised conn) : Recognised (listUPSLoop conn devices) := by
  rw [listUPSLoop_eq]
  exact recognised_append _ _ h

theorem recognised_listVARLoop (conn d : String) (fields : List (String × Value))
    (h : Recognised conn) : Recognised (listVARLoop conn d fields) := by
  rw [listVARLoop_eq]
  exact recognised_append _ _ h

theorem recognisedReply_mk (s : String) (p : Bool) (h : Recognised s) :
    RecognisedReply ⟨s, p⟩ := h

theorem recognised_ite {c : Prop} [Decidable c] {a b : Outcome} (ha : RecognisedReply a)
    (hb : RecognisedReply b) : RecognisedReply (if c then a else b) := by
  split <;> assumption

theorem recognised_ite_neg {c : Prop} [Decidable c] {a b : Outcome} (hc : ¬c)
    (hb : RecognisedReply b) : RecognisedReply (if c then a else b) := by
  rw [if_neg hc]
  exact hb

theorem recognised_ite_pos {c : Prop} [Decidable c] {a b : Outcome} (hc : c)
    (ha : RecognisedReply a) : RecognisedReply (if c then a else b) := by
  rw [if_pos hc]
  exact ha

theorem dispatch_GET_recognised (srv : FakeNUTServer) (s v w : String) :
    RecognisedReply (dispatch srv "GET" s v w) := by
  unfold dispatch
  with_reducible
    repeat' first
      | refine recognised_ite_neg (by decide) ?_
      | refine recognised_ite_pos (by decide) ?_
      | apply recognised_ite
      | apply recognisedReply_mk
      | decide
      | apply recognised_Fprint_empty
      | apply recognised_append

theorem dispatch_LIST_recognised_of_ne_VAR (srv : FakeNUTServer) (s v w : String)
    (h : s ≠ "VAR") : RecognisedReply (dispatch srv "LIST" s v w) := by
  unfold dispatch
  with_reducible
    repeat' first
      | refine recognised_ite_neg (by decide) ?_
      | refine recognised_ite_pos (by decide) ?_
      | refine recognised_ite_neg h ?_
      | apply recognised_ite
      | apply recognisedReply_mk
      | decide
      | apply recognised_Fprintln
      | apply recognised_listUPSLoop
      | apply recognised_Fprint_empty
      | apply recognised_Fprint
      | apply recognised_append

theorem dispatch_LIST_VAR_recognised (srv : FakeNUTServer) (v w : String) :
    RecognisedReply (dispatch srv "LIST" "VAR" v w) := by
  by_cases hv : v = ""
  · subst hv
    rw [dispatch_LIST_no_device _ _ _ (by decide)]
    exact recognisedReply_mk _ _ (by decide)
  · rw [dispatch_list_var _ _ _ hv]
    have hb : Recognised ("BEGIN LIST VAR " ++ v ++ "\n") :=
      recognised_append _ _ (recognised_append _ _ (by decide))
    have hconn : Recognised (if (List.lookup v srv.Devices).isSome then
        "BEGIN LIST VAR " ++ v ++ "\n"
        else "BEGIN LIST VAR " ++ v ++ "\n" ++ ("ERR NOSUCHCMD " ++ v ++ "\n")) := by
      split
      · exact hb
      · exact recognised_append _ _ hb
    cases (List.lookup v srv.Devices).getD none with
    | none => exact hconn
    | some device => exact recognised_append _ _ (recognised_listVARLoop _ _ _ hconn)

/-- A line whose primary token has a case in the `switch` is not answered by the
reply to an unknown command. -/
theorem dispatch_recognised (srv : FakeNUTServer) (cmd s v w : String)
    (h : cmd ∈ primaryCommands) : RecognisedReply (dispatch srv cmd s v w) := by
  simp only [primaryCommands, List.mem_cons, List.mem_singleton, List.not_mem_nil,
    or_false] at h
  rcases h with rfl | rfl | rfl | rfl | rfl | rfl | rfl | rfl | rfl | rfl | rfl
  · rw [dispatch_HELP]
    exact recognisedReply_mk _ _ (by decide)
  · have hver : dispatch srv "VER" s v w = ⟨"Fake UPS Server\n", false⟩ := by
      simp [dispatch]
      rfl
    rw [hver]
    exact recognisedReply_mk _ _ (by decide)
  · exact dispatch_GET_recognised _ _ _ _
  · by_cases hs : s = "VAR"
    · subst hs
      exact dispatch_LIST_VAR_recognised _ _ _
    · exact dispatch_LIST_recognised_of_ne_VAR _ _ _ _ hs
  · rw [dispatch_SET]
    exact recognisedReply_mk _ _ (by decide)
  · rw [dispatch_INSTCMD]
    exact recognisedReply_mk _ _ (by decide)
  · rw [dispatch_OK _ _ _ _ _ (by decide)]
    exact recognisedReply_mk _ _ (by decide)
  · rw [dispatch_OK _ _ _ _ _ (by decide)]
    exact recognisedReply_mk _ _ (by decide)
  · rw [dispatch_OK _ _ _ _ _ (by decide)]
    exact recognisedReply_mk _ _ (by decide)
  · rw [dispatch_OK _ _ _ _ _ (by decide)]
    exact recognisedReply_mk _ _ (by decide)
  · rw [dispatch_STARTTLS]
    exact recognisedReply_mk _ _ (by decide)

theorem helpNames_HELP (srv : FakeNUTServer) :
    helpNames (handleUPSCommand srv "HELP").written = primaryCommands := by
  have h : handleUPSCommand srv "HELP" = dispatch srv "HELP" "" "" "" :=
    handleUPSCommand_joinTokens srv "HELP" [] (by decide)
  rw [h, dispatch_HELP]
  decide

/-- C20: a line whose primary token is `HELP` gets the single line
`Commands: HELP VER GET LIST SET INSTCMD LOGIN LOGOUT USERNAME PASSWORD STARTTLS\n`,
and the names listed in it are exactly the supported primary commands: the
primary token of a line is listed if and only if the line does not get
`ERR UNKNOWN-COMMAND\n`. -/
theorem help_reply (fakeNUTServer : FakeNUTServer) (command : String) :
    (firstToken command = "HELP" →
      handleUPSCommand fakeNUTServer command =
        ⟨"Commands: HELP VER GET LIST SET INSTCMD LOGIN LOGOUT USERNAME PASSWORD STARTTLS\n",
          false⟩) ∧
    (firstToken command ∈ helpNames (handleUPSCommand fakeNUTServer "HELP").written ↔
      (handleUPSCommand fakeNUTServer command).written ≠ "ERR UNKNOWN-COMMAND\n") := by
  constructor
  · intro h
    rw [handleUPSCommand_tokens, h]
    exact dispatch_HELP _ _ _ _
  · rw [helpNames_HELP, handleUPSCommand_tokens]
    constructor
    · intro h
      exact recognised_ne _ (dispatch_recognised _ _ _ _ _ h)
    · intro h
      by_contra hn
      exact h (by rw [dispatch_unknown _ _ _ _ _ hn])

/-- The line `HELP me` gets the list of commands; `VER` is listed in it and is
not an unknown command. -/
theorem help_reply_witness :
    handleUPSCommand (NewFakeNUTServer emptyEnv) "HELP me" =
      ⟨"Commands: HELP VER GET LIST SET INSTCMD LOGIN LOGOUT USERNAME PASSWORD STARTTLS\n",
        false⟩ ∧
    (firstToken "VER" ∈ helpNames (handleUPSCommand (NewFakeNUTServer emptyEnv) "HELP").written ↔
      (handleUPSCommand (NewFakeNUTServer emptyEnv) "VER").written ≠ "ERR UNKNOWN-COMMAND\n") :=
  ⟨(help_reply _ "HELP me").1 (by decide), (help_reply _ "VER").2⟩

/-! ## Replies on a connection -/

theorem connectionLoop_prefix (srv : FakeNUTServer) (received : List String) :
    connectionLoop srv received <+:
      received.map fun l => handleUPSCommand srv (TrimSpace l) := by
  induction received with
  | nil => exact List.prefix_refl _
  | cons l ls ih =>
    simp only [connectionLoop, List.map_cons]
    split
    · exact List.prefix_iff_eq_append.mpr (by simp)
    · exact (List.prefix_cons_inj _).mpr ih

/-- On a connection where no call of the handler panics, every received line
is answered as the handler answers that line alone. -/
theorem connectionLoop_of_no_panic (srv : FakeNUTServer) (received : List String)
    (h : ∀ l ∈ received, (handleUPSCommand srv (TrimSpace l)).panicked = false) :
    connectionLoop srv received =
      received.map fun l => handleUPSCommand srv (TrimSpace l) := by
  induction received with
  | nil => rfl
  | cons l ls ih =>
    have hl := h l (by simp)
    simp only [connectionLoop, List.map_cons, hl]
    simp [ih fun x hx => h x (List.mem_cons_of_mem _ hx)]

set_option maxRecDepth 100000 in
/-- C17: on one connection the lines `LOGIN`, `USERNAME x`, `PASSWORD y`,
`INSTCMD` are answered `OK`, `OK`, `OK`, `ERR USERNAME-REQUIRED`, and
`LIST VAR FakeUPS` is answered in the same way before and after a `SET` and an
`INSTCMD`; but the reply to a line is not always the reply the handler gives to
that line alone: after `LIST VAR Nonexistent`, on which the handler panics, the
line `VER` gets no reply at all, while alone it gets `Fake UPS Server\n`. -/
theorem connection_replies_stop_after_panic :
    Start.connection (NewFakeNUTServer emptyEnv) "LOGIN\nUSERNAME x\nPASSWORD y\nINSTCMD\n" =
      [⟨"OK\n", false⟩, ⟨"OK\n", false⟩, ⟨"OK\n", false⟩, ⟨"ERR USERNAME-REQUIRED\n", false⟩] ∧
    Start.connection (NewFakeNUTServer emptyEnv) "LIST VAR Nonexistent\nVER\n" =
      [⟨"BEGIN LIST VAR Nonexistent\nERR NOSUCHCMD Nonexistent\n", true⟩] ∧
    Start.connection (NewFakeNUTServer emptyEnv) "VER\n" = [⟨"Fake UPS Server\n", false⟩] ∧
    Start.connection (NewFakeNUTServer emptyEnv)
        "LIST VAR FakeUPS\nSET ups.status OB\nINSTCMD FakeUPS load.off\nLIST VAR FakeUPS\n" =
      [handleUPSCommand (NewFakeNUTServer emptyEnv) "LIST VAR FakeUPS",
        ⟨"ERR INVALID ARGUMENT\n", false⟩, ⟨"ERR USERNAME-REQUIRED\n", false⟩,
        handleUPSCommand (NewFakeNUTServer emptyEnv) "LIST VAR FakeUPS"] := by
  refine ⟨by decide, by decide, by decide, ?_⟩
  decide!

/-! ## `VER` -/

theorem dispatch_VER (srv : FakeNUTServer) (s v w : String) :
    dispatch srv "VER" s v w = ⟨"Fake UPS Server\n", false⟩ := by
  simp [dispatch]
  rfl

/-- C21: a line whose primary token is `VER` gets, whatever arguments follow and
whatever the registry, the single line `Fake UPS Server\n`. -/
theorem ver_reply (fakeNUTServer : FakeNUTServer) (command : String)
    (h : firstToken command = "VER") :
    handleUPSCommand fakeNUTServer command = ⟨"Fake UPS Server\n", false⟩ := by
  rw [handleUPSCommand_tokens, h]
  exact dispatch_VER _ _ _ _

/-- The lines `VER` and `VER 1 2 3 4`. -/
theorem ver_reply_witness :
    handleUPSCommand (NewFakeNUTServer emptyEnv) "VER" = ⟨"Fake UPS Server\n", false⟩ ∧
    handleUPSCommand ⟨"h", "p", []⟩ "VER 1 2 3 4" = ⟨"Fake UPS Server\n", false⟩ :=
  ⟨ver_reply _ "VER" (by decide), ver_reply _ "VER 1 2 3 4" (by decide)⟩

/-! ## The server built by `NewFakeNUTServer` -/

/-- C22: in every environment the registry built by `NewFakeNUTServer` has the
single key `FakeUPS`, and the device stored under it has `battery.charge` 100
and `ups.status` `OL`; a lookup of any other name finds nothing. -/
theorem default_registry (env : Env) :
    (NewFakeNUTServer env).Devices.map Prod.fst = ["FakeUPS"] ∧
    (∃ device : FakeNUTDevice,
      (NewFakeNUTServer env).Devices = [("FakeUPS", some device)] ∧
      (NewFakeNUTServer env).Devices.lookup "FakeUPS" = some (some device) ∧
      device.BatteryCharge = 100 ∧ device.UPSStatus = "OL" ∧
      ("battery.charge", Value.int 100) ∈ device.fields ∧
      ("ups.status", Value.string "OL") ∈ device.fields) ∧
    ∀ name : String, name ≠ "FakeUPS" → (NewFakeNUTServer env).Devices.lookup name = none := by
  rw [NewFakeNUTServer_Devices]
  refine ⟨rfl, ⟨NewFakeNUTServer.device, rfl, rfl, rfl, rfl, ?_, ?_⟩, ?_⟩
  · simp [FakeNUTDevice.fields, NewFakeNUTServer.device]
  · simp [FakeNUTDevice.fields, NewFakeNUTServer.device]
  · intro name hne
    have hb : (name == "FakeUPS") = false := by simpa using hne
    simp [List.lookup, hb]

/-- The names `FakeUPS` and `Nonexistent` in the registry of the empty environment. -/
theorem default_registry_witness :
    "Nonexistent" ≠ "FakeUPS" ∧
    (NewFakeNUTServer emptyEnv).Devices.lookup "Nonexistent" = none :=
  ⟨by decide, (default_registry emptyEnv).2.2 "Nonexistent" (by decide)⟩

/-- C23: in every environment `NewFakeNUTServer` sets `Host` to the value of
`NUT_SERVER` if it is set and to `localhost` otherwise, `Port` to the value of
`NUT_PORT` if it is set and to `3493` otherwise, and the registry does not
depend on the environment: any two environments give equal `Devices`. -/
theorem new_server_environment (env other : Env) :
    (NewFakeNUTServer env).Host = (env "NUT_SERVER").getD "localhost" ∧
    (NewFakeNUTServer env).Port = (env "NUT_PORT").getD "3493" ∧
    (NewFakeNUTServer env).Devices = (NewFakeNUTServer other).Devices ∧
    (NewFakeNUTServer env).Devices = [("FakeUPS", some NewFakeNUTServer.device)] := by
  refine ⟨?_, ?_, by rw [NewFakeNUTServer_Devices, NewFakeNUTServer_Devices],
    NewFakeNUTServer_Devices env⟩
  · unfold NewFakeNUTServer
    cases env "NUT_SERVER" <;> cases env "NUT_PORT" <;> rfl
  · unfold NewFakeNUTServer
    cases env "NUT_SERVER" <;> cases env "NUT_PORT" <;> rfl

/-! ## `LoadConfig` -/

/-- C25: when none of the environment variables that `LoadConfig` reads is set,
`LoadConfig` leaves `config` as it is, with every field at its documented
default; the integer and boolean defaults survive the passage through
`Itoa`/`Atoi` and `FormatBool`/`ParseBool`. -/
theorem loadConfig_defaults (env : Env) (h : ∀ key ∈ configVariables, env key = none) :
    LoadConfig env config = config ∧
    LoadConfig env config =
      { MQTTBrokerProtocol := "tcp", MQTTBrokerHost := "localhost", MQTTBrokerPort := 1883,
        MQTTClient := "nuttyqt", MQTTTopic := "nuttyqt", MQTTUser := "", MQTTPass := "",
        NUTServerHost := "localhost", NUTServerPort := 3493, NUTUser := "", NUTPass := "",
        UpdateInterval := 60, Verbose := false } ∧
    (Atoi (Itoa 1883) = (1883, false) ∧ Atoi (Itoa 3493) = (3493, false) ∧
      Atoi (Itoa 60) = (60, false) ∧ ParseBool (FormatBool false) = (false, false)) := by
  simp only [configVariables, List.mem_cons, List.mem_singleton, List.not_mem_nil, or_false,
    forall_eq_or_imp, forall_eq] at h
  obtain ⟨h1, h2, h3, h4, h5, h6, h7, h8, h9, h10, h11, h12, h13⟩ := h
  have key : LoadConfig env config = config := by
    simp only [LoadConfig, GetEnv, h1, h2, h3, h4, h5, h6, h7, h8, h9, h10, h11, h12, h13]
    decide
  exact ⟨key, key, by decide⟩

/-- The environment in which no variable is set. -/
theorem loadConfig_defaults_witness :
    (∀ key ∈ configVariables, emptyEnv key = none) ∧ LoadConfig emptyEnv config = config :=
  ⟨fun _ _ => rfl, (loadConfig_defaults emptyEnv fun _ _ => rfl).1⟩

/-! ## The tokens are the pieces between single spaces -/

theorem splitChars_append (sep : Char) (a b : List Char) :
    splitChars sep (a ++ sep :: b) = splitChars sep a ++ splitChars sep b := by
  induction a with
  | nil => simp [splitChars]
  | cons c cs ih =>
    by_cases hc : c = sep
    · simp [splitChars, hc, ih]
    · cases hs : splitChars sep cs with
      | nil => exact absurd hs (splitChars_ne_nil sep cs)
      | cons t ts => simp [splitChars, hc, ih, hs]

theorem splitChars_not_mem (sep : Char) (l : List Char) :
    ∀ t ∈ splitChars sep l, sep ∉ t := by
  induction l with
  | nil => simp [splitChars]
  | cons c cs ih =>
    by_cases hc : c = sep
    · intro t ht
      simp only [splitChars, hc, if_true, List.mem_cons] at ht
      rcases ht with rfl | ht
      · simp
      · exact ih t ht
    · cases hs : splitChars sep cs with
      | nil => exact absurd hs (splitChars_ne_nil sep cs)
      | cons u us =>
        rw [hs] at ih
        intro t ht
        simp only [splitChars, hc, if_false, hs, List.mem_cons] at ht
        rcases ht with rfl | ht
        · have hu := ih u (by simp)
          simp only [List.mem_cons, not_or]
          exact ⟨fun e => hc e.symm, hu⟩
        · exact ih t (List.mem_cons_of_mem _ ht)

theorem Split_append (a b : String) :
    Split (a ++ " " ++ b) ' ' = Split a ' ' ++ Split b ' ' := by
  have hd : (a ++ " " ++ b).data = a.data ++ ' ' :: b.data := by
    simp [String.data_append]
  simp [Split, hd, splitChars_append]

theorem Split_not_mem (s : String) : ∀ t ∈ Split s ' ', ' ' ∉ t.data := by
  intro t ht
  simp only [Split, List.mem_map] at ht
  obtain ⟨l, hl, rfl⟩ := ht
  exact splitChars_not_mem ' ' s.data l hl

theorem joinTokens_splitChars (l : List Char) :
    joinTokens ((splitChars ' ' l).map String.mk) = String.mk l := by
  induction l with
  | nil => rfl
  | cons c cs ih =>
    cases hs : splitChars ' ' cs with
    | nil => exact absurd hs (splitChars_ne_nil ' ' cs)
    | cons t ts =>
      rw [hs] at ih
      by_cases hc : c = ' '
      · subst hc
        simp only [splitChars, if_true, hs, List.map_cons, joinTokens] at ih ⊢
        rw [ih]
        exact String.ext (by simp [String.data_append])
      · simp only [splitChars, hc, if_false, hs, List.map_cons]
        cases ts with
        | nil =>
          simp only [List.map_nil, joinTokens] at ih ⊢
          have : t = cs := by simpa using congrArg String.data ih
          rw [this]
        | cons u us =>
          simp only [List.map_cons, joinTokens] at ih ⊢
          apply String.ext
          have := congrArg String.data ih
          simp only [String.data_append] at this ⊢
          simp [← this]

theorem joinTokens_Split (s : String) : joinTokens (Split s ' ') = s :=
  joinTokens_splitChars s.data

/-- C26: the parser splits on every single space and keeps the empty tokens:
a line made of space-free tokens, some of them possibly empty, joined by single
spaces splits back into exactly these tokens.  So `GET UPSDESC  FakeUPS` has an
empty device token and gets `ERR INVALID-ARGUMENT\n`, and `GET  UPSDESC FakeUPS`
has an empty sub-command and the device token `UPSDESC`, and gets
`NUMLOGINS UPSDESC 1\n`. -/
theorem split_keeps_empty_tokens (fakeNUTServer : FakeNUTServer) (ts : List String)
    (hne : ts ≠ []) (h : ∀ t ∈ ts, ' ' ∉ t.data) :
    Split (joinTokens ts) ' ' = ts ∧
    Split "GET UPSDESC  FakeUPS" ' ' = ["GET", "UPSDESC", "", "FakeUPS"] ∧
    token "GET UPSDESC  FakeUPS" 2 = "" ∧
    handleUPSCommand fakeNUTServer "GET UPSDESC  FakeUPS" = ⟨"ERR INVALID-ARGUMENT\n", false⟩ ∧
    Split "GET  UPSDESC FakeUPS" ' ' = ["GET", "", "UPSDESC", "FakeUPS"] ∧
    token "GET  UPSDESC FakeUPS" 1 = "" ∧ token "GET  UPSDESC FakeUPS" 2 = "UPSDESC" ∧
    handleUPSCommand fakeNUTServer "GET  UPSDESC FakeUPS" = ⟨"NUMLOGINS UPSDESC 1\n", false⟩ := by
  refine ⟨Split_joinTokens ts hne h, by decide, by decide, ?_, by decide, by decide, by decide, ?_⟩
  · rw [handleUPSCommand_of_Split _ _ "GET" ["UPSDESC", "", "FakeUPS"] (by decide)]
    simp [dispatch]
    rfl
  · rw [handleUPSCommand_of_Split _ _ "GET" ["", "UPSDESC", "FakeUPS"] (by decide)]
    exact (dispatch_GET_default _ "" "UPSDESC" "FakeUPS" (by decide) (by decide)).trans
      (if_neg (by decide))

/-- The tokens `GET`, the empty token, `UPSDESC` and `FakeUPS`. -/
theorem split_keeps_empty_tokens_witness :
    (["GET", "", "UPSDESC", "FakeUPS"] ≠ [] ∧
      ∀ t ∈ ["GET", "", "UPSDESC", "FakeUPS"], ' ' ∉ t.data) ∧
    Split (joinTokens ["GET", "", "UPSDESC", "FakeUPS"]) ' ' =
      ["GET", "", "UPSDESC", "FakeUPS"] :=
  ⟨⟨by decide, by decide⟩,
   (split_keeps_empty_tokens (NewFakeNUTServer emptyEnv) ["GET", "", "UPSDESC", "FakeUPS"]
      (by decide) (by decide)).1⟩

/-- C27: parsing never fails: for every line the split has a first piece, which
is the text before the first space; the pieces are the space-free texts that,
joined by single spaces, give the line; the handler runs its `switch` on the
first piece and on the second to fourth, each empty when absent; and the pieces
beyond the fourth are ignored, so adding trailing tokens to a line of at least
four tokens does not change the outcome. -/
theorem parsing_total (fakeNUTServer : FakeNUTServer) (command extra : String) :
    (Split command ' ')[0]? = some (firstToken command) ∧
    (∀ t ∈ Split command ' ', ' ' ∉ t.data) ∧ joinTokens (Split command ' ') = command ∧
    handleUPSCommand fakeNUTServer command =
      dispatch fakeNUTServer (firstToken command) (token command 1) (token command 2)
        (token command 3) ∧
    (∀ i : Nat, (Split command ' ').length ≤ i → token command i = "") ∧
    (4 ≤ (Split command ' ').length →
      handleUPSCommand fakeNUTServer (command ++ " " ++ extra) =
        handleUPSCommand fakeNUTServer command) := by
  refine ⟨?_, Split_not_mem command, joinTokens_Split command,
    handleUPSCommand_tokens _ _, ?_, ?_⟩
  · have h := Split_head command ' '
    rw [List.head?_eq_getElem?] at h
    exact h
  · intro i hi
    exact List.getD_eq_default _ _ hi
  · intro h4
    rw [handleUPSCommand_tokens, handleUPSCommand_tokens fakeNUTServer command]
    have hs := Split_append command extra
    rcases hc : Split command ' ' with _ | ⟨a, _ | ⟨b, _ | ⟨c, _ | ⟨d, r⟩⟩⟩⟩
    all_goals rw [hc] at h4 hs
    all_goals try (simp at h4)
    simp only [← token_zero, token, hs, hc, List.cons_append, List.getD_cons_zero,
      List.getD_cons_succ]

/-- The line `GET CMDDESC FakeUPS load.off` with and without the trailing
tokens `more tokens`. -/
theorem parsing_total_witness :
    4 ≤ (Split "GET CMDDESC FakeUPS load.off" ' ').length ∧
    handleUPSCommand (NewFakeNUTServer emptyEnv)
        ("GET CMDDESC FakeUPS load.off" ++ " " ++ "more tokens") =
      handleUPSCommand (NewFakeNUTServer emptyEnv) "GET CMDDESC FakeUPS load.off" :=
  ⟨by decide,
   (parsing_total (NewFakeNUTServer emptyEnv) "GET CMDDESC FakeUPS load.off"
      "more tokens").2.2.2.2.2 (by decide)⟩

/-! ## The order of the variables in `LIST VAR` -/

set_option maxRecDepth 100000 in
/-- C29: in the reply to `LIST VAR FakeUPS` for the registry of
`NewFakeNUTServer` the data lines name the 42 variables in the declaration
order of the fields of `FakeNUTDevice`, from `battery.charge` to
`ups.vendorid`, and the names, hence the data lines, are pairwise distinct. -/
theorem list_var_names_in_declaration_order (env : Env) :
    ∃ values : List String, values.length = 42 ∧
      handleUPSCommand (NewFakeNUTServer env) "LIST VAR FakeUPS" =
        ⟨unlines (["BEGIN LIST VAR FakeUPS"] ++
          List.zipWith (varLine "FakeUPS") variableNames values ++
          ["END LIST VAR FakeUPS"]), false⟩ ∧
      variableNames =
      ["battery.charge", "battery.charge.low", "battery.charge.warning", "battery.mfr.date",
        "battery.runtime", "battery.runtime.low", "battery.type", "battery.voltage",
        "battery.voltage.nominal", "device.mfr", "device.model", "device.serial",
        "device.type", "driver.name", "driver.parameter.pollfreq",
        "driver.parameter.pollinterval", "driver.parameter.port",
        "driver.parameter.synchronous", "driver.version", "driver.version.data",
        "driver.version.internal", "driver.version.usb", "input.frequency",
        "input.transfer.high", "input.transfer.low", "input.voltage",
        "input.voltage.nominal", "output.frequency", "output.voltage", "ups.beeper.status",
        "ups.delay.shutdown", "ups.delay.start", "ups.load", "ups.mfr", "ups.model",
        "ups.productid", "ups.realpower.nominal", "ups.serial", "ups.status",
        "ups.timer.shutdown", "ups.timer.start", "ups.vendorid"] ∧
      variableNames.length = 42 ∧ variableNames.Nodup ∧
      variableNames.head? = some "battery.charge" ∧
      variableNames.getLast? = some "ups.vendorid" ∧
      (List.zipWith (varLine "FakeUPS") variableNames values).Nodup := by
  refine ⟨(FakeNUTDevice.fields NewFakeNUTServer.device).map (fun f => fmtS f.2),
    by decide, ?_, by decide, by decide, by decide, by decide, by decide, by decide⟩
  have h := list_var_found (NewFakeNUTServer env) "FakeUPS" NewFakeNUTServer.device
    (by decide) (by decide) (by rw [NewFakeNUTServer_Devices]; rfl)
  rw [variableNames, zipWith_map_fields]
  exact h

/-! ## Trimming of the received line -/

theorem TrimSpace_data (s : String) :
    (TrimSpace s).data = (s.data.dropWhile isSpace).rdropWhile isSpace := rfl

theorem TrimSpace_append_newline (s : String) : TrimSpace (s ++ "\n") = TrimSpace s := by
  apply String.ext
  have hn : isSpace '\n' = true := by decide
  have hd : (s ++ "\n").data = s.data ++ ['\n'] := by simp [String.data_append]
  rw [TrimSpace_data, TrimSpace_data, hd, List.dropWhile_append]
  split
  · rename_i he
    have : List.dropWhile isSpace s.data = [] := by simpa using he
    simp [this, hn, List.rdropWhile]
  · exact List.rdropWhile_concat_pos _ _ _ hn

theorem TrimSpace_head (s : String) (c : Char) (h : (TrimSpace s).data.head? = some c) :
    isSpace c = false := by
  rw [TrimSpace_data] at h
  have hp : List.rdropWhile isSpace (s.data.dropWhile isSpace) <+: s.data.dropWhile isSpace :=
    List.rdropWhile_prefix isSpace _
  obtain ⟨t, ht⟩ := hp
  cases hr : List.rdropWhile isSpace (s.data.dropWhile isSpace) with
  | nil => rw [hr] at h; simp at h
  | cons x xs =>
    rw [hr] at h ht
    have hx : x = c := by simpa using h
    have hh := List.head?_dropWhile_not isSpace s.data
    rw [← ht] at hh
    simpa [hx] using hh

theorem TrimSpace_getLast (s : String) (c : Char) (h : (TrimSpace s).data.getLast? = some c) :
    isSpace c = false := by
  rw [TrimSpace_data] at h
  cases hr : List.rdropWhile isSpace (s.data.dropWhile isSpace) with
  | nil => rw [hr] at h; simp at h
  | cons x xs =>
    have hne : List.rdropWhile isSpace (s.data.dropWhile isSpace) ≠ [] := by simp [hr]
    have hl := List.rdropWhile_last_not isSpace (s.data.dropWhile isSpace) hne
    rw [List.getLast?_eq_getLast _ hne] at h
    have hc : (List.rdropWhile isSpace (s.data.dropWhile isSpace)).getLast hne = c :=
      Option.some.inj h
    rw [hc] at hl
    simpa using hl

theorem TrimSpace_idempotent (s : String) : TrimSpace (TrimSpace s) = TrimSpace s := by
  apply String.ext
  rw [TrimSpace_data (TrimSpace s)]
  have h1 : List.dropWhile isSpace (TrimSpace s).data = (TrimSpace s).data := by
    rw [List.dropWhile_eq_self_iff]
    intro hl
    have hh : (TrimSpace s).data.head? = some ((TrimSpace s).data.get ⟨0, hl⟩) := by
      rw [List.head?_eq_getElem?, List.get_eq_getElem]
      exact List.getElem?_eq_getElem hl
    rw [TrimSpace_head s _ hh]
    simp
  rw [h1, TrimSpace_data, List.rdropWhile_idempotent]

theorem TrimSpace_strips (s : String) :
    ∃ before after : List Char, s.data = before ++ (TrimSpace s).data ++ after ∧
      (∀ c ∈ before, isSpace c = true) ∧ (∀ c ∈ after, isSpace c = true) := by
  refine ⟨s.data.takeWhile isSpace, (s.data.dropWhile isSpace).rtakeWhile isSpace, ?_, ?_, ?_⟩
  · rw [TrimSpace_data, List.append_assoc]
    have h2 : List.rdropWhile isSpace (s.data.dropWhile isSpace) ++
        List.rtakeWhile isSpace (s.data.dropWhile isSpace) = s.data.dropWhile isSpace := by
      simp only [List.rdropWhile, List.rtakeWhile, ← List.reverse_append,
        List.takeWhile_append_dropWhile, List.reverse_reverse]
    rw [h2, List.takeWhile_append_dropWhile]
  · intro c hc
    exact List.mem_takeWhile_imp hc
  · intro c hc
    exact List.mem_rtakeWhile_imp hc

theorem readStrings_one (line : String) (hnl : '\n' ∉ line.data) :
    readStrings (line ++ "\n") = [line ++ "\n"] := by
  have hd : (line ++ "\n").data = line.data ++ '\n' :: [] := by simp [String.data_append]
  simp [readStrings, Split, hd, splitChars_append_sep _ _ _ hnl, splitChars]

theorem connectionLoop_one (srv : FakeNUTServer) (received : String) :
    connectionLoop srv [received] = [handleUPSCommand srv (TrimSpace received)] := by
  simp only [connectionLoop]
  split <;> rfl

theorem connection_one (srv : FakeNUTServer) (line : String) (hnl : '\n' ∉ line.data) :
    Start.connection srv (line ++ "\n") = [handleUPSCommand srv (TrimSpace line)] := by
  rw [Start.connection, readStrings_one line hnl, connectionLoop_one, TrimSpace_append_newline]

theorem splitChars_unlines (lines : List String) (tail : String)
    (hnl : ∀ l ∈ lines, '\n' ∉ l.data) (ht : '\n' ∉ tail.data) :
    splitChars '\n' (unlines lines ++ tail).data = lines.map String.data ++ [tail.data] := by
  induction lines with
  | nil =>
    have hd : (unlines [] ++ tail).data = tail.data := by simp [unlines, String.data_append]
    rw [hd]
    exact splitChars_of_not_mem _ _ ht
  | cons l ls ih =>
    have hd : (unlines (l :: ls) ++ tail).data = l.data ++ '\n' :: (unlines ls ++ tail).data := by
      simp [unlines, String.data_append]
    rw [hd, splitChars_append_sep _ _ _ (hnl l (by simp)),
      ih fun x hx => hnl x (List.mem_cons_of_mem _ hx)]
    simp

/-- The results of `ReadString` on newline-terminated lines followed by a text
without newline: the lines, each with its newline; the text that follows the
last newline is not among them. -/
theorem readStrings_unlines (lines : List String) (tail : String)
    (hnl : ∀ l ∈ lines, '\n' ∉ l.data) (ht : '\n' ∉ tail.data) :
    readStrings (unlines lines ++ tail) = lines.map (· ++ "\n") := by
  have hid : (String.mk ∘ String.data) = id := funext fun s => rfl
  simp only [readStrings, Split]
  rw [splitChars_unlines lines tail hnl ht]
  simp [hid]

/-- The outcomes of the loop are those of the handler on each trimmed line, in
order, up to and including the first call that panics. -/
theorem connectionLoop_eq (srv : FakeNUTServer) (received : List String) :
    connectionLoop srv received =
      (received.map fun l => handleUPSCommand srv (TrimSpace l)).takeWhile
          (fun o => !o.panicked) ++
        ((received.map fun l => handleUPSCommand srv (TrimSpace l)).dropWhile
          (fun o => !o.panicked)).take 1 := by
  induction received with
  | nil => rfl
  | cons l ls ih =>
    by_cases hp : (handleUPSCommand srv (TrimSpace l)).panicked = true
    · simp [connectionLoop, hp]
    · simp only [Bool.not_eq_true] at hp
      simp [connectionLoop, hp, ih]

theorem connection_unlines (srv : FakeNUTServer) (lines : List String) (tail : String)
    (hnl : ∀ l ∈ lines, '\n' ∉ l.data) (ht : '\n' ∉ tail.data) :
    Start.connection srv (unlines lines ++ tail) =
      connectionLoop srv (lines.map (· ++ "\n")) ∧
    (lines.map (· ++ "\n")).map (fun l => handleUPSCommand srv (TrimSpace l)) =
      lines.map fun l => handleUPSCommand srv (TrimSpace l) := by
  constructor
  · rw [Start.connection, readStrings_unlines lines tail hnl ht]
  · simp [List.map_map, Function.comp_def, TrimSpace_append_newline]

/-- C28: the connection loop strips the surrounding white space before it
dispatches.  For every text that a client sends, made of newline-terminated
lines and possibly an unterminated rest, the outcomes are those of the handler
on each line without its leading and trailing white space (spaces, tabs, `\r`,
the terminating `\n`), line by line and in order, up to and including the
first call that panics; every line is so answered when no call panics, and the
unterminated rest is never dispatched.  What stripping removes is white space
only, what it leaves neither starts nor ends with white space, and stripping
twice is stripping once; `VER\r\n`, `  VER  \n` and `VER\n` get the same
reply. -/
theorem connection_trims_line (fakeNUTServer : FakeNUTServer) (lines : List String)
    (tail line : String) (hnl : ∀ l ∈ lines, '\n' ∉ l.data) (ht : '\n' ∉ tail.data) :
    Start.connection fakeNUTServer (unlines lines ++ tail) =
      (lines.map fun l => handleUPSCommand fakeNUTServer (TrimSpace l)).takeWhile
          (fun o => !o.panicked) ++
        ((lines.map fun l => handleUPSCommand fakeNUTServer (TrimSpace l)).dropWhile
          (fun o => !o.panicked)).take 1 ∧
    Start.connection fakeNUTServer (unlines lines ++ tail) <+:
      (lines.map fun l => handleUPSCommand fakeNUTServer (TrimSpace l)) ∧
    ((∀ l ∈ lines, (handleUPSCommand fakeNUTServer (TrimSpace l)).panicked = false) →
      Start.connection fakeNUTServer (unlines lines ++ tail) =
        lines.map fun l => handleUPSCommand fakeNUTServer (TrimSpace l)) ∧
    ('\n' ∉ line.data →
      Start.connection fakeNUTServer (line ++ "\n") =
        [handleUPSCommand fakeNUTServer (TrimSpace line)]) ∧
    TrimSpace (line ++ "\n") = TrimSpace line ∧
    TrimSpace (TrimSpace line) = TrimSpace line ∧
    (∃ before after : List Char, line.data = before ++ (TrimSpace line).data ++ after ∧
      (∀ c ∈ before, isSpace c = true) ∧ (∀ c ∈ after, isSpace c = true)) ∧
    (∀ c : Char, (TrimSpace line).data.head? = some c → isSpace c = false) ∧
    (∀ c : Char, (TrimSpace line).data.getLast? = some c → isSpace c = false) ∧
    (isSpace ' ' = true ∧ isSpace '\t' = true ∧ isSpace '\r' = true ∧ isSpace '\n' = true) ∧
    Start.connection fakeNUTServer "VER\n" = [⟨"Fake UPS Server\n", false⟩] ∧
    Start.connection fakeNUTServer "VER\r\n" = [⟨"Fake UPS Server\n", false⟩] ∧
    Start.connection fakeNUTServer "  VER  \n" = [⟨"Fake UPS Server\n", false⟩] := by
  have hver : handleUPSCommand fakeNUTServer "VER" = ⟨"Fake UPS Server\n", false⟩ := by
    rw [handleUPSCommand_tokens, show firstToken "VER" = "VER" from by decide]
    exact dispatch_VER _ _ _ _
  obtain ⟨hconn, hmap⟩ := connection_unlines fakeNUTServer lines tail hnl ht
  refine ⟨?_, ?_, ?_, connection_one _ _, TrimSpace_append_newline _, TrimSpace_idempotent _,
    TrimSpace_strips _, TrimSpace_head _, TrimSpace_getLast _, by decide, ?_, ?_, ?_⟩
  · rw [hconn, connectionLoop_eq, hmap]
  · rw [hconn, ← hmap]
    exact connectionLoop_prefix _ _
  · intro hall
    rw [hconn, ← hmap]
    apply connectionLoop_of_no_panic
    intro l hl
    obtain ⟨x, hx, rfl⟩ := List.mem_map.mp hl
    rw [TrimSpace_append_newline]
    exact hall x hx
  · have h := connection_one fakeNUTServer "VER" (by decide)
    rw [show TrimSpace "VER" = "VER" from by decide, hver] at h
    exact h
  · have h := connection_one fakeNUTServer "VER\r" (by decide)
    rw [show TrimSpace "VER\r" = "VER" from by decide, hver] at h
    exact h
  · have h := connection_one fakeNUTServer "  VER  " (by decide)
    rw [show TrimSpace "  VER  " = "VER" from by decide, hver] at h
    exact h

/-- A connection that sends the three lines `  VER  `, `LOGIN x` followed by
`\r`, and `GET UPSDESC FakeUPS`, each terminated by a newline, and then the
unterminated text `HELP`: the three lines are answered as their trimmed texts
are, and `HELP` is not answered. -/
theorem connection_trims_line_witness :
    ((∀ l ∈ ["  VER  ", "LOGIN x\r", "GET UPSDESC FakeUPS"], '\n' ∉ l.data) ∧
      '\n' ∉ "HELP".data ∧
      ∀ l ∈ ["  VER  ", "LOGIN x\r", "GET UPSDESC FakeUPS"],
        (handleUPSCommand (NewFakeNUTServer emptyEnv) (TrimSpace l)).panicked = false) ∧
    Start.connection (NewFakeNUTServer emptyEnv)
        (unlines ["  VER  ", "LOGIN x\r", "GET UPSDESC FakeUPS"] ++ "HELP") =
      ["  VER  ", "LOGIN x\r", "GET UPSDESC FakeUPS"].map
        (fun l => handleUPSCommand (NewFakeNUTServer emptyEnv) (TrimSpace l)) ∧
    ["  VER  ", "LOGIN x\r", "GET UPSDESC FakeUPS"].map
        (fun l => handleUPSCommand (NewFakeNUTServer emptyEnv) (TrimSpace l)) =
      [⟨"Fake UPS Server\n", false⟩, ⟨"OK\n", false⟩,
        ⟨"UPSDESC FakeUPS \"Fake UPS Device\"\n", false⟩] :=
  ⟨⟨by decide, by decide, by decide⟩,
   (connection_trims_line (NewFakeNUTServer emptyEnv)
      ["  VER  ", "LOGIN x\r", "GET UPSDESC FakeUPS"] "HELP" "" (by decide) (by decide)).2.2.1
      (by decide),
   by decide⟩

/-! ## Commands that do not read the registry -/

theorem dispatch_independent_of_ne_LIST (srv₁ srv₂ : FakeNUTServer) (cmd s v w : String)
    (h : cmd ≠ "LIST") : dispatch srv₁ cmd s v w = dispatch srv₂ cmd s v w := by
  simp only [dispatch, h, if_false]

theorem dispatch_LIST_independent (srv₁ srv₂ : FakeNUTServer) (s v w : String)
    (h1 : s ≠ "UPS") (h2 : s ≠ "VAR") :
    dispatch srv₁ "LIST" s v w = dispatch srv₂ "LIST" s v w := by
  simp only [dispatch, h1, h2, if_false]

set_option maxRecDepth 100000 in
/-- C30: every command other than `LIST UPS` and `LIST VAR` is independent of
the registry: a line whose first two tokens are not `LIST UPS` or `LIST VAR` has
the same outcome for any two servers, and the handler returns normally on it.
In particular `GET UPSDESC`, `GET NUMLOGINS`, `GET CMDDESC`, `LIST CLIENT` and
`LIST CMD` give, for the device name `Nonexistent` and every registry, their
normal reply, without any `ERR NOSUCHCMD` line. -/
theorem registry_independent (fakeNUTServer other : FakeNUTServer) (command : String)
    (h : ¬ (firstToken command = "LIST" ∧ token command 1 ∈ ["UPS", "VAR"])) :
    handleUPSCommand fakeNUTServer command = handleUPSCommand other command ∧
    Returned (handleUPSCommand fakeNUTServer command) ∧
    handleUPSCommand fakeNUTServer "GET UPSDESC Nonexistent" =
      ⟨"UPSDESC Nonexistent \"Fake UPS Device\"\n", false⟩ ∧
    handleUPSCommand fakeNUTServer "GET NUMLOGINS Nonexistent" =
      ⟨"NUMLOGINS Nonexistent 1\n", false⟩ ∧
    handleUPSCommand fakeNUTServer "GET CMDDESC Nonexistent load.off" =
      ⟨"CMDDESC Nonexistent load.off \"Description unavailable\"\n", false⟩ ∧
    handleUPSCommand fakeNUTServer "LIST CLIENT Nonexistent" =
      ⟨"BEGIN LIST CLIENT Nonexistent\nCLIENT Nonexistent 127.0.0.1\nEND LIST CLIENT Nonexistent\n",
        false⟩ ∧
    handleUPSCommand fakeNUTServer "LIST CMD Nonexistent" =
      ⟨unlines (["BEGIN LIST CMD Nonexistent"] ++
        instantCommands.map (fun n => "CMD Nonexistent " ++ n) ++
        ["END LIST CMD Nonexistent"]), false⟩ ∧
    (∀ l ∈ ["BEGIN LIST CMD Nonexistent"] ++
        instantCommands.map (fun n => "CMD Nonexistent " ++ n) ++
        ["END LIST CMD Nonexistent"], ¬ ("ERR NOSUCHCMD".data <+: l.data)) := by
  have key : ∀ (a b : FakeNUTServer) (line : String),
      ¬ (firstToken line = "LIST" ∧ token line 1 ∈ ["UPS", "VAR"]) →
      handleUPSCommand a line = handleUPSCommand b line := by
    intro a b line hl
    rw [handleUPSCommand_tokens, handleUPSCommand_tokens b]
    by_cases h0 : firstToken line = "LIST"
    · have h1 : token line 1 ∉ ["UPS", "VAR"] := fun hm => hl ⟨h0, hm⟩
      simp only [List.mem_cons, List.mem_singleton, List.not_mem_nil, or_false, not_or] at h1
      rw [h0]
      exact dispatch_LIST_independent _ _ _ _ _ h1.1 h1.2
    · exact dispatch_independent_of_ne_LIST _ _ _ _ _ _ h0
  have hempty : ∀ line : String,
      ¬ (firstToken line = "LIST" ∧ token line 1 ∈ ["UPS", "VAR"]) →
      handleUPSCommand fakeNUTServer line = handleUPSCommand ⟨"", "", []⟩ line :=
    fun line hl => key _ _ line hl
  refine ⟨key _ _ _ h, ?_, ?_, ?_, ?_, ?_, ?_, by decide⟩
  · rcases handleUPSCommand_returned_or_panicked fakeNUTServer command with hr | ⟨_, d, _, hd, _⟩
    · exact hr
    · exfalso
      apply h
      have h0 : token command 0 = "LIST" := by
        simp only [token]
        rw [← List.take_append_drop 3 (Split command ' '), hd]
        rfl
      have h1 : token command 1 = "VAR" := by
        simp only [token]
        rw [← List.take_append_drop 3 (Split command ' '), hd]
        rfl
      rw [← token_zero, h0, h1]
      exact ⟨rfl, by decide⟩
  · rw [hempty _ (by decide)]
    decide
  · rw [hempty _ (by decide)]
    decide
  · rw [hempty _ (by decide)]
    decide
  · rw [hempty _ (by decide)]
    decide
  · rw [hempty _ (by decide)]
    decide

/-- The line `GET UPSDESC Nonexistent` against the default registry and
against the empty one. -/
theorem registry_independent_witness :
    ¬ (firstToken "GET UPSDESC Nonexistent" = "LIST" ∧
        token "GET UPSDESC Nonexistent" 1 ∈ ["UPS", "VAR"]) ∧
    handleUPSCommand (NewFakeNUTServer emptyEnv) "GET UPSDESC Nonexistent" =
      handleUPSCommand ⟨"localhost", "3493", []⟩ "GET UPSDESC Nonexistent" :=
  ⟨by decide,
   (registry_independent (NewFakeNUTServer emptyEnv) ⟨"localhost", "3493", []⟩
      "GET UPSDESC Nonexistent" (by decide)).1⟩

/-! ## The error line of `LIST VAR` sits inside the block -/

theorem data_prefix_append (a b : String) : a.data <+: (a ++ b).data := by
  rw [String.data_append]
  exact List.prefix_append _ _

theorem list_var_starts_with_BEGIN (srv : FakeNUTServer) (d : String)
    (hne : d ≠ "") (hsp : ' ' ∉ d.data) :
    ("BEGIN LIST VAR " ++ d ++ "\n").data <+:
      (handleUPSCommand srv ("LIST VAR " ++ d)).written.data := by
  rw [list_var_line_eq, handleUPSCommand_joinTokens _ _ _ (by simpa using hsp)]
  simp only [List.getD_cons_zero, List.getD_cons_succ]
  rw [dispatch_list_var _ _ _ hne]
  have hconn : ("BEGIN LIST VAR " ++ d ++ "\n").data <+:
      (if (List.lookup d srv.Devices).isSome then "BEGIN LIST VAR " ++ d ++ "\n"
        else "BEGIN LIST VAR " ++ d ++ "\n" ++ ("ERR NOSUCHCMD " ++ d ++ "\n")).data := by
    split
    · exact List.prefix_refl _
    · exact data_prefix_append _ _
  cases (List.lookup d srv.Devices).getD none with
  | none => exact hconn
  | some device =>
    simp only [listVARLoop_eq]
    exact (hconn.trans (data_prefix_append _ _)).trans (data_prefix_append _ _)

/-- C31: for every non-empty device name `d` that is not in the registry, the
text written for `LIST VAR d` starts with `BEGIN LIST VAR d\nERR NOSUCHCMD d\n`:
its first line is the opening line of the block and its second line is the
error line.  The opening line is written before the lookup: the text starts
with it for every registry, whether it holds `d` or not. -/
theorem list_var_error_line_inside_block (fakeNUTServer : FakeNUTServer) (d : String)
    (hne : d ≠ "") (hsp : ' ' ∉ d.data) (hkey : d ∉ fakeNUTServer.Devices.map Prod.fst) :
    ("BEGIN LIST VAR " ++ d ++ "\nERR NOSUCHCMD " ++ d ++ "\n").data <+:
      (handleUPSCommand fakeNUTServer ("LIST VAR " ++ d)).written.data ∧
    (∃ rest : String, (handleUPSCommand fakeNUTServer ("LIST VAR " ++ d)).written =
      "BEGIN LIST VAR " ++ d ++ "\n" ++ ("ERR NOSUCHCMD " ++ d ++ "\n") ++ rest) ∧
    ∀ other : FakeNUTServer, ("BEGIN LIST VAR " ++ d ++ "\n").data <+:
      (handleUPSCommand other ("LIST VAR " ++ d)).written.data := by
  have hw : (handleUPSCommand fakeNUTServer ("LIST VAR " ++ d)).written =
      "BEGIN LIST VAR " ++ d ++ "\n" ++ ("ERR NOSUCHCMD " ++ d ++ "\n") := by
    rw [list_var_missing _ _ hne hsp hkey]
    apply String.ext
    simp [unlines, String.data_append]
  refine ⟨?_, ⟨"", ?_⟩, fun other => list_var_starts_with_BEGIN other d hne hsp⟩
  · rw [hw]
    have he : "BEGIN LIST VAR " ++ d ++ "\nERR NOSUCHCMD " ++ d ++ "\n" =
        "BEGIN LIST VAR " ++ d ++ "\n" ++ ("ERR NOSUCHCMD " ++ d ++ "\n") := by
      apply String.ext
      simp only [String.data_append, List.append_assoc]
      rfl
    rw [he]
  · rw [hw]
    exact String.ext (by simp [String.data_append])

/-- The request `LIST VAR Nonexistent` against the default registry. -/
theorem list_var_error_line_inside_block_witness :
    ("Nonexistent" ≠ "" ∧ ' ' ∉ "Nonexistent".data ∧
      "Nonexistent" ∉ (NewFakeNUTServer emptyEnv).Devices.map Prod.fst) ∧
    ("BEGIN LIST VAR " ++ "Nonexistent" ++ "\nERR NOSUCHCMD " ++ "Nonexistent" ++ "\n").data <+:
      (handleUPSCommand (NewFakeNUTServer emptyEnv) ("LIST VAR " ++ "Nonexistent")).written.data :=
  ⟨⟨by decide, by decide, by decide⟩,
   (list_var_error_line_inside_block (NewFakeNUTServer emptyEnv) "Nonexistent"
      (by decide) (by decide) (by decide)).1⟩

/-! ## `LoadConfig` on values that do not parse -/

theorem Atoi_digits_eq_unsigned (s : String) :
    (if s.data.head? = some '-' ∨ s.data.head? = some '+' then s.data.tail else s.data) =
      unsigned s := by
  cases hd : s.data with
  | nil => simp [unsigned, hd]
  | cons c cs =>
    by_cases hp : c = '+'
    · subst hp
      simp [unsigned, hd]
    · by_cases hm : c = '-'
      · subst hm
        simp [unsigned, hd]
      · have hu : unsigned s = c :: cs := by
          unfold unsigned
          rw [hd]
          split
          · rename_i rest h
            exact absurd (List.cons.inj h).1 hp
          · rename_i rest h
            exact absurd (List.cons.inj h).1 hm
          · rfl
        simp [hu, hp, hm]

theorem le_foldl_digits (l : List Char) (m : Nat) :
    m ≤ l.foldl (fun n c => n * 10 + (c.toNat - '0'.toNat)) m := by
  induction l generalizing m with
  | nil => exact Nat.le_refl _
  | cons c cs ih =>
    simp only [List.foldl_cons]
    exact Nat.le_trans (by omega) (ih _)

theorem ParseUint_loop_invalid (l : List Char) (n : Nat)
    (hnot : ¬ ∀ c ∈ l, c.isDigit = true)
    (hv : (l.takeWhile Char.isDigit).foldl (fun n c => n * 10 + (c.toNat - '0'.toNat)) n
      ≤ 2 ^ 64 - 1) :
    ParseUint.loop l n = .invalid := by
  induction l generalizing n with
  | nil => exact absurd (by simp) hnot
  | cons c cs ih =>
    by_cases hc : c.isDigit = true
    · have hnot2 : ¬ ∀ x ∈ cs, x.isDigit = true := by
        intro hall
        apply hnot
        intro x hx
        simp only [List.mem_cons] at hx
        rcases hx with rfl | hx
        · exact hc
        · exact hall x hx
      simp only [List.takeWhile_cons, hc, if_true, List.foldl_cons] at hv
      have hle := le_foldl_digits (cs.takeWhile Char.isDigit) (n * 10 + (c.toNat - '0'.toNat))
      have hsmall : ¬ (n * 10 + (c.toNat - '0'.toNat) > 2 ^ 64 - 1) := by omega
      simp only [ParseUint.loop, hc, if_true, hsmall, if_false]
      exact ih _ hnot2 hv
    · simp [ParseUint.loop, hc]

/-- A text that is not a decimal integer and whose leading digits do not
exceed `2^64 - 1` makes `Atoi` return `0` with an error. -/
theorem Atoi_of_not_decimal (s : String) (hs : ¬ IsDecimalInteger s)
    (hv : digitsValue (leadingDigits s) ≤ 2 ^ 64 - 1) : Atoi s = (0, true) := by
  unfold Atoi
  by_cases he : s = ""
  · simp [he]
  · simp only [he, if_false, Atoi_digits_eq_unsigned]
    have hp : ParseUint (unsigned s) = .invalid := by
      unfold ParseUint
      by_cases hn : unsigned s = []
      · simp [hn]
      · simp only [hn, if_false]
        apply ParseUint_loop_invalid
        · intro hall
          exact hs ⟨hn, hall⟩
        · exact hv
    rw [hp]

theorem LoadConfig_MQTTBrokerPort (env : Env) (cfg : Config) (t : String)
    (h : env "MQTT_BROKER_PORT" = some t) : (LoadConfig env cfg).MQTTBrokerPort = (Atoi t).1 := by
  simp [LoadConfig, GetEnv, h]

theorem LoadConfig_NUTServerPort (env : Env) (cfg : Config) (t : String)
    (h : env "NUT_PORT" = some t) : (LoadConfig env cfg).NUTServerPort = (Atoi t).1 := by
  simp [LoadConfig, GetEnv, h]

theorem LoadConfig_UpdateInterval (env : Env) (cfg : Config) (t : String)
    (h : env "UPDATE_INTERVAL" = some t) : (LoadConfig env cfg).UpdateInterval = (Atoi t).1 := by
  simp [LoadConfig, GetEnv, h]

theorem LoadConfig_Verbose (env : Env) (cfg : Config) (t : String)
    (h : env "VERBOSE" = some t) : (LoadConfig env cfg).Verbose = (ParseBool t).1 := by
  simp [LoadConfig, GetEnv, h]

theorem ParseBool_of_error (b : String) (h : (ParseBool b).2 = true) : (ParseBool b).1 = false := by
  unfold ParseBool at h ⊢
  split
  · rename_i h1
    simp [h1] at h
  · split
    · rfl
    · rfl

end NuttyQt
